import Mathlib

/-!
Verification development for the BLE packet-loss test service
(`losstst_svc.c`).  The definitions below are shallow embeddings of the
C functions of that file: machine integers are modelled as `Int`/`Nat`
(all quantities stay far from the 8/16/32-bit overflow boundaries, which
is recorded as hypotheses where relevant), fixed-size C arrays become
lists or `Fin`-indexed functions, and the blocking/radio side effects
that the properties do not mention (advertising start/stop, logging,
yielding) are dropped or abstracted into explicit parameters.
-/

namespace LosststSvc

/-- Constant INT16_MAX of `<stdint.h>`, used as the "round complete" sentinel. -/
def INT16_MAX : Int := 32767

/-- Constant INT16_MIN of `<stdint.h>`, used as the "configuration preset" sentinel. -/
def INT16_MIN : Int := -32768

/-- Constant LOSS_TEST_BURST_COUNT from `losstst_svc.c` (250 events per burst). -/
def LOSS_TEST_BURST_COUNT : Nat := 250

/-! ## RoleArbiter: `losstst_task_tgr` / `losstst_task_status`

The C file keeps one shared `int8_t losstst_task_val` (0 when idle,
otherwise the tag of the active role) and four wrappers fixing the
role tag. -/

/-- Role tag `sender_tgr = 1` from `losstst_svc.c`. -/
def sender_tgr : Int := 1

/-- Role tag `scanner_tgr = 2` from `losstst_svc.c`. -/
def scanner_tgr : Int := 2

/-- Role tag `numcst_tgr = 3` from `losstst_svc.c`. -/
def numcst_tgr : Int := 3

/-- Role tag `envmon_tgr = 4` from `losstst_svc.c`. -/
def envmon_tgr : Int := 4

/-- Embedding of `losstst_task_tgr(set, TGR_VAL)`.  The shared
`losstst_task_val` becomes the explicit first argument `val`; the result
is the pair (C return value, new `losstst_task_val`). -/
def losstst_task_tgr (val set TGR_VAL : Int) : Int × Int :=
  if TGR_VAL ≠ val ∧ set = 0 then (0, val)
  else
    let val2 := if val = 0 ∧ 0 < set then TGR_VAL
      else if TGR_VAL = val ∧ set = -TGR_VAL then 0
      else val
    (val2, val2)

/-- Embedding of `losstst_task_status(TGR_VAL)`: 0 = idle, 1 = running,
2 = blocking. -/
def losstst_task_status (val TGR_VAL : Int) : Int :=
  if val = 0 then 0
  else if TGR_VAL = val then 1
  else 2

/-- Wrapper `sender_task_tgr(set)` (role tag 1). -/
def sender_task_tgr (val set : Int) : Int × Int := losstst_task_tgr val set sender_tgr

/-- Wrapper `scanner_task_tgr(set)` (role tag 2). -/
def scanner_task_tgr (val set : Int) : Int × Int := losstst_task_tgr val set scanner_tgr

/-- Wrapper `numcst_task_tgr(set)` (role tag 3). -/
def numcst_task_tgr (val set : Int) : Int × Int := losstst_task_tgr val set numcst_tgr

/-- Wrapper `envmon_task_tgr(set)` (role tag 4). -/
def envmon_task_tgr (val set : Int) : Int × Int := losstst_task_tgr val set envmon_tgr

/-- Wrapper `sender_task_status()`. -/
def sender_task_status (val : Int) : Int := losstst_task_status val sender_tgr

/-- Wrapper `scanner_task_status()`. -/
def scanner_task_status (val : Int) : Int := losstst_task_status val scanner_tgr

/-- Wrapper `numcst_task_status()`. -/
def numcst_task_status (val : Int) : Int := losstst_task_status val numcst_tgr

/-- Wrapper `envmon_task_status()`. -/
def envmon_task_status (val : Int) : Int := losstst_task_status val envmon_tgr

/-- Runs a finite sequence of trigger calls (role tag, `set` argument)
starting from a given `losstst_task_val`, returning the final value. -/
def runTriggers (val : Int) (calls : List (Int × Int)) : Int :=
  calls.foldl (fun v c => (losstst_task_tgr v c.2 c.1).2) val

/-- Number of the four status functions that currently report 1 (Running). -/
def runningCount (val : Int) : Nat :=
  (if sender_task_status val = 1 then 1 else 0) +
  (if scanner_task_status val = 1 then 1 else 0) +
  (if numcst_task_status val = 1 then 1 else 0) +
  (if envmon_task_status val = 1 then 1 else 0)

theorem runningCount_le_one (val : Int) : runningCount val ≤ 1 := by
  unfold runningCount sender_task_status scanner_task_status numcst_task_status
    envmon_task_status losstst_task_status sender_tgr scanner_tgr numcst_tgr envmon_tgr
  split_ifs <;> omega

theorem losstst_task_tgr_val_cases (val set TGR_VAL : Int) :
    (losstst_task_tgr val set TGR_VAL).2 = val ∨
    (losstst_task_tgr val set TGR_VAL).2 = TGR_VAL ∨
    (losstst_task_tgr val set TGR_VAL).2 = 0 := by
  unfold losstst_task_tgr
  dsimp only
  split_ifs <;> simp

theorem runTriggers_mem (calls : List (Int × Int))
    (hroles : ∀ c ∈ calls, c.1 = 1 ∨ c.1 = 2 ∨ c.1 = 3 ∨ c.1 = 4)
    (val : Int) (hval : val = 0 ∨ val = 1 ∨ val = 2 ∨ val = 3 ∨ val = 4) :
    runTriggers val calls = 0 ∨ runTriggers val calls = 1 ∨
    runTriggers val calls = 2 ∨ runTriggers val calls = 3 ∨
    runTriggers val calls = 4 := by
  induction calls generalizing val with
  | nil => simpa [runTriggers] using hval
  | cons c rest ih =>
    have hc := hroles c (List.mem_cons_self c rest)
    have hrest : ∀ x ∈ rest, x.1 = 1 ∨ x.1 = 2 ∨ x.1 = 3 ∨ x.1 = 4 :=
      fun x hx => hroles x (List.mem_cons_of_mem c hx)
    have hnext := losstst_task_tgr_val_cases val c.2 c.1
    have : runTriggers val (c :: rest) =
        runTriggers (losstst_task_tgr val c.2 c.1).2 rest := by
      simp [runTriggers, List.foldl_cons]
    rw [this]
    apply ih hrest
    rcases hnext with h | h | h <;> rw [h] <;> tauto

/-- C1: Role exclusivity.  For every finite sequence of trigger calls
(role tag among the four wrappers, any `int8` argument) starting from the
idle state, the shared active-role value stays in the set 0..4, and at
most one of the four status functions reports 1 (Running). -/
theorem C1_role_exclusivity (calls : List (Int × Int))
    (hcalls : ∀ c ∈ calls,
      (c.1 = 1 ∨ c.1 = 2 ∨ c.1 = 3 ∨ c.1 = 4) ∧ -128 ≤ c.2 ∧ c.2 ≤ 127) :
    (runTriggers 0 calls = 0 ∨ runTriggers 0 calls = 1 ∨
     runTriggers 0 calls = 2 ∨ runTriggers 0 calls = 3 ∨
     runTriggers 0 calls = 4) ∧
    runningCount (runTriggers 0 calls) ≤ 1 := by
  refine ⟨runTriggers_mem calls (fun c hc => (hcalls c hc).1) 0 (by left; rfl),
    runningCount_le_one _⟩

/-- Witness for C1 at a concrete call sequence (sender claims, scanner is
blocked, sender releases, scanner claims). -/
theorem C1_role_exclusivity_witness :
    (∀ c ∈ [((1 : Int), (1 : Int)), (2, 1), (1, -1), (2, 1)],
      (c.1 = 1 ∨ c.1 = 2 ∨ c.1 = 3 ∨ c.1 = 4) ∧ -128 ≤ c.2 ∧ c.2 ≤ 127) ∧
    ((runTriggers 0 [((1 : Int), (1 : Int)), (2, 1), (1, -1), (2, 1)] = 0 ∨
      runTriggers 0 [((1 : Int), (1 : Int)), (2, 1), (1, -1), (2, 1)] = 1 ∨
      runTriggers 0 [((1 : Int), (1 : Int)), (2, 1), (1, -1), (2, 1)] = 2 ∨
      runTriggers 0 [((1 : Int), (1 : Int)), (2, 1), (1, -1), (2, 1)] = 3 ∨
      runTriggers 0 [((1 : Int), (1 : Int)), (2, 1), (1, -1), (2, 1)] = 4) ∧
     runningCount (runTriggers 0 [((1 : Int), (1 : Int)), (2, 1), (1, -1), (2, 1)]) ≤ 1) :=
  ⟨by decide,
   C1_role_exclusivity [((1 : Int), (1 : Int)), (2, 1), (1, -1), (2, 1)] (by decide)⟩

/-- C2 counterexample: the claim says `trigger(role, delta)` returns the
currently active role id (0 if idle) in all cases, but after the scanner
claims the slot, a `delta = 0` query through `sender_task_tgr` returns 0
even though the active role id is 2. -/
theorem C2_counterexample :
    (scanner_task_tgr 0 1).2 = 2 ∧
    (sender_task_tgr 2 0).1 = 0 ∧ (2 : Int) ≠ 0 := by decide

/-- C2 amended: `delta = 0` is a pure query that changes no state and
returns the active role id if the queried role holds the slot, else 0
(even when another role is active); `delta > 0` claims the role exactly
when no role is active; `delta < 0` releases the slot exactly when the
queried role holds it and `delta = -role`; in the `delta ≠ 0` cases the
call returns the active role id after the call. -/
theorem C2_trigger_contract (val set R : Int)
    (hR : R = 1 ∨ R = 2 ∨ R = 3 ∨ R = 4) :
    (set = 0 →
      (losstst_task_tgr val set R).2 = val ∧
      (losstst_task_tgr val set R).1 = (if val = R then val else 0)) ∧
    (0 < set →
      (losstst_task_tgr val set R).2 = (if val = 0 then R else val) ∧
      (losstst_task_tgr val set R).1 = (losstst_task_tgr val set R).2) ∧
    (set < 0 →
      (losstst_task_tgr val set R).2 =
        (if val = R ∧ set = -R then 0 else val) ∧
      (losstst_task_tgr val set R).1 = (losstst_task_tgr val set R).2) := by
  have hRpos : 0 < R := by rcases hR with h | h | h | h <;> omega
  unfold losstst_task_tgr
  dsimp only
  refine ⟨fun hset => ?_, fun hset => ?_, fun hset => ?_⟩ <;>
    constructor <;> split_ifs <;> dsimp only <;> omega

/-- Witness for C2 amended at role 2, state 0, delta 1. -/
theorem C2_trigger_contract_witness :
    ((2 : Int) = 1 ∨ (2 : Int) = 2 ∨ (2 : Int) = 3 ∨ (2 : Int) = 4) ∧
    ((0 : Int) < 1 → (losstst_task_tgr 0 1 2).2 = (if (0 : Int) = 0 then 2 else 0) ∧
      (losstst_task_tgr 0 1 2).1 = (losstst_task_tgr 0 1 2).2) := by
  exact ⟨by decide, ((C2_trigger_contract 0 1 2 (by decide)).2.1)⟩

/-! ## ChannelManager: `get_adv_channel_map` -/

/-- Embedding of `get_adv_channel_map(inhibit_ch37, inhibit_ch38,
inhibit_ch39)`.  The C code starts from 0x07, clears one bit per inhibit
flag (`&= ~0x01` on a `uint8_t` is `&&& 0xFE`, and so on), and falls
back to 0x07 when every bit got cleared. -/
def get_adv_channel_map (inhibit_ch37 inhibit_ch38 inhibit_ch39 : Bool) : Nat :=
  let channel_map : Nat := 0x07
  let channel_map := if inhibit_ch37 then channel_map &&& 0xFE else channel_map
  let channel_map := if inhibit_ch38 then channel_map &&& 0xFD else channel_map
  let channel_map := if inhibit_ch39 then channel_map &&& 0xFB else channel_map
  if channel_map = 0 then 0x07 else channel_map

/-- C8: Channel-map fallback.  For every combination of the three inhibit
flags the computed advertising channel map is non-zero, and inhibiting
all three sub-channels yields exactly the same map (0x07) as inhibiting
none of them. -/
theorem C8_channel_map_fallback :
    (∀ a b c : Bool, get_adv_channel_map a b c ≠ 0) ∧
    get_adv_channel_map true true true = get_adv_channel_map false false false ∧
    get_adv_channel_map true true true = 0x07 := by decide

/-! ## SenderProtocol WaitAck loop (losstst_sender, phase 3 wait)

The C loop is
`while (((lc_phy_sel[0] && !ack_remote_resp[0]) || ... || ignore_rcv_resp)`
`       && (uptime_64_barrier > platform_uptime_get())) ...`;
we embed its continue-condition and the loop itself over an explicit
trace of (uptime, ack-flag) observations. -/

/-- Continue-condition of the Sender's acknowledgment wait loop, exactly
as written in `losstst_sender` (four explicit per-channel terms ORed with
`ignore_rcv_resp`, ANDed with the 100 ms deadline test). -/
def waitAckCond (sel0 sel1 sel2 sel3 a0 a1 a2 a3 ignore : Bool)
    (barrier now : Int) : Bool :=
  ((sel0 && !a0) || (sel1 && !a1) || (sel2 && !a2) || (sel3 && !a3) || ignore) &&
    decide (barrier > now)

/-- Number of iterations the acknowledgment wait loop executes over a
trace of observations; each observation is the uptime read by
`platform_uptime_get()` paired with the four `ack_remote_resp` flags at
that iteration.  The loop exits at the first observation falsifying the
continue-condition. -/
def waitAckSteps (sel0 sel1 sel2 sel3 ignore : Bool) (barrier : Int) :
    List (Int × Bool × Bool × Bool × Bool) → Nat
  | [] => 0
  | ob :: rest =>
    if waitAckCond sel0 sel1 sel2 sel3 ob.2.1 ob.2.2.1 ob.2.2.2.1 ob.2.2.2.2
        ignore barrier ob.1 then
      waitAckSteps sel0 sel1 sel2 sel3 ignore barrier rest + 1
    else 0

/-- C4 counterexample: with `ignore_rcv_resp` set the WaitAck phase is
not skipped.  Channel 0 selected, every acknowledgment flag already set,
deadline not yet reached: the continue-condition still holds, so the
loop keeps waiting (one iteration per observation), whereas with
`ignore_rcv_resp` clear the same situation exits immediately. -/
theorem C4_counterexample :
    waitAckCond true false false false true true true true true 100 0 = true ∧
    waitAckSteps true false false false true 100 [(0, true, true, true, true)] = 1 ∧
    waitAckSteps true false false false false 100 [(0, true, true, true, true)] = 0 := by
  decide

/-- C4 amended: when `ignore_rcv_resp` is set the Sender waits the full
100 ms deadline regardless of the acknowledgment flags (the wait is not
skipped and acknowledgments cannot end it early: the loop runs exactly
until the first observation at or past the deadline); when it is clear,
the Sender leaves the phase as soon as every selected channel's flag is
set or the deadline has passed, whichever comes first. -/
theorem C4_waitack_bypass (sel0 sel1 sel2 sel3 a0 a1 a2 a3 ignore : Bool)
    (barrier now : Int) :
    (waitAckCond sel0 sel1 sel2 sel3 a0 a1 a2 a3 ignore barrier now = false ↔
      (barrier ≤ now ∨ (ignore = false ∧
        (sel0 = true → a0 = true) ∧ (sel1 = true → a1 = true) ∧
        (sel2 = true → a2 = true) ∧ (sel3 = true → a3 = true)))) ∧
    (ignore = true → ∀ obs : List (Int × Bool × Bool × Bool × Bool),
      waitAckSteps sel0 sel1 sel2 sel3 ignore barrier obs =
        (obs.takeWhile (fun ob => decide (barrier > ob.1))).length) := by
  constructor
  · rcases le_or_lt barrier now with h | h
    · have hd : decide (barrier > now) = false := by
        simp [not_lt.mpr h]
      unfold waitAckCond
      rw [hd, Bool.and_false]
      simp [h]
    · have hd : decide (barrier > now) = true := by simp [h]
      have hnle : ¬barrier ≤ now := not_le.mpr h
      unfold waitAckCond
      rw [hd, Bool.and_true]
      simp only [hnle, false_or]
      revert ignore sel0 sel1 sel2 sel3 a0 a1 a2 a3
      decide
  · intro hig obs
    subst hig
    induction obs with
    | nil => rfl
    | cons ob rest ih =>
      rcases lt_or_le ob.1 barrier with h | h
      · have hc : waitAckCond sel0 sel1 sel2 sel3 ob.2.1 ob.2.2.1 ob.2.2.2.1
            ob.2.2.2.2 true barrier ob.1 = true := by
          unfold waitAckCond
          simp [h]
        simp [waitAckSteps, hc, List.takeWhile, h, ih]
      · have hc : waitAckCond sel0 sel1 sel2 sel3 ob.2.1 ob.2.2.1 ob.2.2.2.1
            ob.2.2.2.2 true barrier ob.1 = false := by
          unfold waitAckCond
          simp [not_lt.mpr h]
        simp [waitAckSteps, hc, List.takeWhile, not_lt.mpr h]

/-- Witness for C4 amended at a concrete instance: channel 0 selected,
acks set, `ignore_rcv_resp` set, one observation before the deadline. -/
theorem C4_waitack_bypass_witness :
    true = true ∧
    (∀ obs : List (Int × Bool × Bool × Bool × Bool),
      waitAckSteps true false false false true 100 obs =
        (obs.takeWhile (fun ob => decide ((100 : Int) > ob.1))).length) :=
  ⟨rfl, (C4_waitack_bypass true false false false true true true true true
    100 0).2 rfl⟩

/-! ## RssiStatsTracker: `numcst_rssi_calc` and the number-cast record path -/

/-- Embedding of `rssi_stamp_t` (expiry timestamp in ms, signed RSSI). -/
structure rssi_stamp_t where
  expired_tm : Int
  rssi : Int
deriving DecidableEq

/-- State touched by `numcst_rssi_calc`: the last-recomputation stamp
`numcst_rssi_rec_tm`, the 32-entry ring buffer `numcst_rssi_rec`
(modelled as a list), and the published triple `numcst_rssi`
(average, min, max). -/
structure NumcstRssiState where
  numcst_rssi_rec_tm : Int
  numcst_rssi_rec : List rssi_stamp_t
  numcst_rssi : Int × Int × Int
deriving DecidableEq

/-- Loop body of `numcst_rssi_calc`: accumulator is (avg, cnt, lower,
upper); a record is folded in when `numcst_rssi_rec_tm <= rec_tm`, with
the exact C ternaries for lower/upper. -/
def numcst_rssi_step (rec_tm : Int) (acc : Int × Int × Int × Int)
    (r : rssi_stamp_t) : Int × Int × Int × Int :=
  if rec_tm ≤ r.expired_tm then
    (acc.1 + r.rssi, acc.2.1 + 1,
     if acc.2.2.1 < r.rssi then acc.2.2.1 else r.rssi,
     if acc.2.2.2 > r.rssi then acc.2.2.2 else r.rssi)
  else acc

/-- Embedding of `numcst_rssi_calc(tm_stamp)`.  The C function returns
early (state untouched) when fewer than 50 ms separate `tm_stamp` from
the last recomputation; otherwise it folds the ring buffer starting from
(avg, cnt, lower, upper) = (0, 0, 20, -127), divides `avg` by `cnt` when
`cnt` is non-zero (C `/` truncates toward zero, `Int.tdiv` here), and
publishes `avg`, `lower` (0 when it stayed at the 20 start value) and
`upper` (0 when it stayed at -127). -/
def numcst_rssi_calc (s : NumcstRssiState) (tm_stamp : Int) : NumcstRssiState :=
  if (s.numcst_rssi_rec_tm - tm_stamp).natAbs < 50 then s
  else
    let f := s.numcst_rssi_rec.foldl (numcst_rssi_step tm_stamp) (0, 0, 20, -127)
    let avg := if f.2.1 ≠ 0 then Int.tdiv f.1 f.2.1 else f.1
    { numcst_rssi_rec_tm := tm_stamp,
      numcst_rssi_rec := s.numcst_rssi_rec,
      numcst_rssi :=
        (avg,
         if f.2.2.1 = 20 then 0 else f.2.2.1,
         if f.2.2.2 = -127 then 0 else f.2.2.2) }

/-- RSSI sanitization performed by `numcast_parser` before recording:
values above 20 dBm are replaced by -128 (not dropped). -/
def numcast_sanitize_rssi (arg_rssi : Int) : Int :=
  if 20 < arg_rssi then -128 else arg_rssi

/-- Record path for one number-cast packet: `numcast_parser` sanitizes
the RSSI and `numcast_packet_evt` stores it in the ring buffer with a
5-second expiry (`platform_uptime_get() + 5000`). -/
def numcast_record_sample (now arg_rssi : Int) : rssi_stamp_t :=
  { expired_tm := now + 5000, rssi := numcast_sanitize_rssi arg_rssi }

/-- Reference (from the spec's words): the RSSI values of the samples
whose expiry timestamp has not passed `now`. -/
def spec_nonexpired_rssi (recs : List rssi_stamp_t) (now : Int) : List Int :=
  (recs.filter (fun r => now ≤ r.expired_tm)).map (fun r => r.rssi)

theorem ite_lt_eq_min (a b : Int) : (if a < b then a else b) = min a b := by
  rw [min_def]; split_ifs <;> omega

theorem ite_gt_eq_max (a b : Int) : (if a > b then a else b) = max a b := by
  rw [max_def]; split_ifs <;> omega

theorem numcst_rssi_fold_eq (rec_tm : Int) (recs : List rssi_stamp_t)
    (acc : Int × Int × Int × Int) :
    recs.foldl (numcst_rssi_step rec_tm) acc =
      (acc.1 + (spec_nonexpired_rssi recs rec_tm).sum,
       acc.2.1 + (spec_nonexpired_rssi recs rec_tm).length,
       (spec_nonexpired_rssi recs rec_tm).foldl min acc.2.2.1,
       (spec_nonexpired_rssi recs rec_tm).foldl max acc.2.2.2) := by
  induction recs generalizing acc with
  | nil => simp [spec_nonexpired_rssi]
  | cons r rest ih =>
    by_cases h : rec_tm ≤ r.expired_tm
    · have hstep : numcst_rssi_step rec_tm acc r =
          (acc.1 + r.rssi, acc.2.1 + 1, min acc.2.2.1 r.rssi, max acc.2.2.2 r.rssi) := by
        unfold numcst_rssi_step
        rw [if_pos h, ite_lt_eq_min, ite_gt_eq_max]
      have hincl : spec_nonexpired_rssi (r :: rest) rec_tm =
          r.rssi :: spec_nonexpired_rssi rest rec_tm := by
        simp [spec_nonexpired_rssi, List.filter_cons, h]
      rw [List.foldl_cons, hstep, ih, hincl]
      simp only [List.sum_cons, List.length_cons, List.foldl_cons]
      refine congrArg₂ _ (by ring) (congrArg₂ _ ?_ rfl)
      push_cast; ring
    · have hstep : numcst_rssi_step rec_tm acc r = acc := by
        unfold numcst_rssi_step
        rw [if_neg h]
      have hincl : spec_nonexpired_rssi (r :: rest) rec_tm =
          spec_nonexpired_rssi rest rec_tm := by
        simp [spec_nonexpired_rssi, List.filter_cons, h]
      rw [List.foldl_cons, hstep, ih, hincl]

theorem foldl_min_le (l : List Int) (a : Int) :
    l.foldl min a ≤ a ∧ ∀ x ∈ l, l.foldl min a ≤ x := by
  induction l generalizing a with
  | nil => simp
  | cons x xs ih =>
    simp only [List.foldl_cons]
    refine ⟨le_trans (ih (min a x)).1 (min_le_left a x), fun y hy => ?_⟩
    rcases List.mem_cons.mp hy with h | h
    · rw [h]; exact le_trans (ih (min a x)).1 (min_le_right a x)
    · exact (ih (min a x)).2 y h

theorem foldl_min_mem (l : List Int) (a : Int) :
    l.foldl min a = a ∨ l.foldl min a ∈ l := by
  induction l generalizing a with
  | nil => simp
  | cons x xs ih =>
    simp only [List.foldl_cons]
    rcases ih (min a x) with h | h
    · rcases le_total a x with hax | hax
      · left; rw [h, min_eq_left hax]
      · right; rw [h, min_eq_right hax]; exact List.mem_cons_self x xs
    · right; exact List.mem_cons_of_mem x h

theorem foldl_max_ge (l : List Int) (a : Int) :
    a ≤ l.foldl max a ∧ ∀ x ∈ l, x ≤ l.foldl max a := by
  induction l generalizing a with
  | nil => simp
  | cons x xs ih =>
    simp only [List.foldl_cons]
    refine ⟨le_trans (le_max_left a x) (ih (max a x)).1, fun y hy => ?_⟩
    rcases List.mem_cons.mp hy with h | h
    · rw [h]; exact le_trans (le_max_right a x) (ih (max a x)).1
    · exact (ih (max a x)).2 y h

theorem foldl_max_mem (l : List Int) (a : Int) :
    l.foldl max a = a ∨ l.foldl max a ∈ l := by
  induction l generalizing a with
  | nil => simp
  | cons x xs ih =>
    simp only [List.foldl_cons]
    rcases ih (max a x) with h | h
    · rcases le_total a x with hax | hax
      · right; rw [h, max_eq_right hax]; exact List.mem_cons_self x xs
      · left; rw [h, max_eq_left hax]
    · right; exact List.mem_cons_of_mem x h

theorem list_exists_min (l : List Int) (h : l ≠ []) :
    ∃ m ∈ l, ∀ y ∈ l, m ≤ y := by
  cases l with
  | nil => exact absurd rfl h
  | cons x xs =>
    refine ⟨xs.foldl min x, ?_, ?_⟩
    · rcases foldl_min_mem xs x with h1 | h1
      · rw [h1]; exact List.mem_cons_self x xs
      · exact List.mem_cons_of_mem x h1
    · intro y hy
      rcases List.mem_cons.mp hy with h1 | h1
      · subst h1; exact (foldl_min_le xs y).1
      · exact (foldl_min_le xs x).2 y h1

theorem list_exists_max (l : List Int) (h : l ≠ []) :
    ∃ M ∈ l, ∀ y ∈ l, y ≤ M := by
  cases l with
  | nil => exact absurd rfl h
  | cons x xs =>
    refine ⟨xs.foldl max x, ?_, ?_⟩
    · rcases foldl_max_mem xs x with h1 | h1
      · rw [h1]; exact List.mem_cons_self x xs
      · exact List.mem_cons_of_mem x h1
    · intro y hy
      rcases List.mem_cons.mp hy with h1 | h1
      · subst h1; exact (foldl_max_ge xs y).1
      · exact (foldl_max_ge xs x).2 y h1

/-- C5 counterexample: with one non-expired sample of exactly 20 dBm (a
legal value, not excluded by the claim's rssi > 20 rule), the computed
minimum is the sentinel 0, not the reference minimum 20. -/
theorem C5_counterexample :
    (numcst_rssi_calc
      { numcst_rssi_rec_tm := 0,
        numcst_rssi_rec :=
          { expired_tm := 1000, rssi := 20 } :: List.replicate 31 ⟨0, 0⟩,
        numcst_rssi := (0, 0, 0) } 100).numcst_rssi.2.1 = 0 ∧
    spec_nonexpired_rssi
      ({ expired_tm := 1000, rssi := 20 } :: List.replicate 31 ⟨0, 0⟩) 100 = [20] ∧
    (0 : Int) ≠ 20 := by decide

/-- C5 amended: a query less than 50 ms after the previous recomputation
returns the previous result unchanged; on recomputation the average is
the truncated integer mean of the samples whose expiry timestamp has not
passed `now` (0 when there are none), the minimum output equals the
reference minimum except that an empty sample set or a minimum of
exactly 20 is reported as 0, and the maximum output equals the reference
maximum except that an empty set or a maximum at or below -127 is
reported as 0; samples with rssi > 20 are not excluded but are recorded
as -128 by the record path (with a 5-second expiry).  Hypotheses record
the ring-buffer invariants (at most 32 entries, sanitized int8 samples),
under which the C int8/int16 accumulators cannot overflow. -/
theorem C5_rssi_aggregation (s : NumcstRssiState) (tm_stamp : Int)
    (hlen : s.numcst_rssi_rec.length ≤ 32)
    (hrange : ∀ r ∈ s.numcst_rssi_rec, -128 ≤ r.rssi ∧ r.rssi ≤ 20) :
    ((s.numcst_rssi_rec_tm - tm_stamp).natAbs < 50 →
      numcst_rssi_calc s tm_stamp = s) ∧
    (50 ≤ (s.numcst_rssi_rec_tm - tm_stamp).natAbs →
      (numcst_rssi_calc s tm_stamp).numcst_rssi_rec_tm = tm_stamp ∧
      (spec_nonexpired_rssi s.numcst_rssi_rec tm_stamp = [] →
        (numcst_rssi_calc s tm_stamp).numcst_rssi = (0, 0, 0)) ∧
      (spec_nonexpired_rssi s.numcst_rssi_rec tm_stamp ≠ [] →
        (numcst_rssi_calc s tm_stamp).numcst_rssi.1 =
          Int.tdiv (spec_nonexpired_rssi s.numcst_rssi_rec tm_stamp).sum
            (spec_nonexpired_rssi s.numcst_rssi_rec tm_stamp).length ∧
        (∃ m ∈ spec_nonexpired_rssi s.numcst_rssi_rec tm_stamp,
          (∀ x ∈ spec_nonexpired_rssi s.numcst_rssi_rec tm_stamp, m ≤ x) ∧
          (numcst_rssi_calc s tm_stamp).numcst_rssi.2.1 =
            (if m = 20 then 0 else m)) ∧
        (∃ M ∈ spec_nonexpired_rssi s.numcst_rssi_rec tm_stamp,
          (∀ x ∈ spec_nonexpired_rssi s.numcst_rssi_rec tm_stamp, x ≤ M) ∧
          (numcst_rssi_calc s tm_stamp).numcst_rssi.2.2 =
            (if M ≤ -127 then 0 else M)))) ∧
    (∀ now r, 20 < r →
      numcast_record_sample now r = { expired_tm := now + 5000, rssi := -128 }) := by
  refine ⟨fun hcache => ?_, fun hfresh => ?_, fun now r hr => ?_⟩
  · unfold numcst_rssi_calc
    rw [if_pos hcache]
  · have hcond : ¬(s.numcst_rssi_rec_tm - tm_stamp).natAbs < 50 := by omega
    have hcalc : numcst_rssi_calc s tm_stamp =
        { numcst_rssi_rec_tm := tm_stamp,
          numcst_rssi_rec := s.numcst_rssi_rec,
          numcst_rssi :=
            (if ((spec_nonexpired_rssi s.numcst_rssi_rec tm_stamp).length : Int) ≠ 0 then
              Int.tdiv (spec_nonexpired_rssi s.numcst_rssi_rec tm_stamp).sum
                (spec_nonexpired_rssi s.numcst_rssi_rec tm_stamp).length
             else (spec_nonexpired_rssi s.numcst_rssi_rec tm_stamp).sum,
             if (spec_nonexpired_rssi s.numcst_rssi_rec tm_stamp).foldl min 20 = 20
               then 0 else (spec_nonexpired_rssi s.numcst_rssi_rec tm_stamp).foldl min 20,
             if (spec_nonexpired_rssi s.numcst_rssi_rec tm_stamp).foldl max (-127) = -127
               then 0 else (spec_nonexpired_rssi s.numcst_rssi_rec tm_stamp).foldl max (-127)) } := by
      unfold numcst_rssi_calc
      rw [if_neg hcond, numcst_rssi_fold_eq]
      simp
    refine ⟨by rw [hcalc], fun hempty => ?_, fun hne => ?_⟩
    · rw [hcalc]
      simp [hempty]
    · set incl := spec_nonexpired_rssi s.numcst_rssi_rec tm_stamp with hincl
      have hrange2 : ∀ x ∈ incl, -128 ≤ x ∧ x ≤ 20 := by
        intro x hx
        rw [hincl] at hx
        unfold spec_nonexpired_rssi at hx
        rcases List.mem_map.mp hx with ⟨r, hrmem, hrx⟩
        exact hrx ▸ hrange r (List.mem_of_mem_filter hrmem)
      have hlenpos : incl.length ≠ 0 := fun h => hne (List.eq_nil_of_length_eq_zero h)
      refine ⟨?_, ?_, ?_⟩
      · have hInt : ((incl.length : Int)) ≠ 0 := by exact_mod_cast hlenpos
        rw [hcalc]
        dsimp only
        rw [if_pos hInt]
      · -- minimum: the fold from 20 computes the true list minimum,
        -- because every sanitized sample is at most 20
        obtain ⟨m, hmem, hub⟩ := list_exists_min incl hne
        have hfold : incl.foldl min 20 = m := by
          have h1 := (foldl_min_le incl 20).2 m hmem
          have h2 : m ≤ incl.foldl min 20 := by
            rcases foldl_min_mem incl 20 with h | h
            · rw [h]; exact (hrange2 m hmem).2
            · exact hub _ h
          omega
        refine ⟨m, hmem, hub, ?_⟩
        rw [hcalc]
        dsimp only
        rw [hfold]
      · -- maximum: the fold from -127 masks any true maximum at or
        -- below -127 (which the sentinel then reports as 0)
        obtain ⟨M, hmem, hub⟩ := list_exists_max incl hne
        have hMle := (foldl_max_ge incl (-127)).2 M hmem
        by_cases hM127 : M ≤ -127
        · have hfold : incl.foldl max (-127) = -127 := by
            rcases foldl_max_mem incl (-127) with h | h
            · exact h
            · have := hub _ h
              have := (foldl_max_ge incl (-127)).1
              omega
          refine ⟨M, hmem, hub, ?_⟩
          rw [hcalc]
          dsimp only
          rw [hfold, if_pos rfl, if_pos hM127]
        · have hfold : incl.foldl max (-127) = M := by
            rcases foldl_max_mem incl (-127) with h | h
            · omega
            · have := hub _ h
              omega
          refine ⟨M, hmem, hub, ?_⟩
          rw [hcalc]
          dsimp only
          rw [hfold, if_neg (by omega), if_neg hM127]
  · unfold numcast_record_sample numcast_sanitize_rssi
    rw [if_pos hr]

/-- Witness for C5 amended on a two-sample buffer queried 100 ms after
the previous recomputation. -/
theorem C5_rssi_aggregation_witness :
    (({ numcst_rssi_rec_tm := 0,
        numcst_rssi_rec := [⟨1000, 10⟩, ⟨1000, 4⟩],
        numcst_rssi := (0, 0, 0) } : NumcstRssiState).numcst_rssi_rec.length ≤ 32) ∧
    (50 ≤ ((0 : Int) - 100).natAbs →
      (numcst_rssi_calc
        { numcst_rssi_rec_tm := 0,
          numcst_rssi_rec := [⟨1000, 10⟩, ⟨1000, 4⟩],
          numcst_rssi := (0, 0, 0) } 100).numcst_rssi_rec_tm = 100 ∧
      (spec_nonexpired_rssi [⟨1000, 10⟩, ⟨1000, 4⟩] 100 = [] →
        (numcst_rssi_calc
          { numcst_rssi_rec_tm := 0,
            numcst_rssi_rec := [⟨1000, 10⟩, ⟨1000, 4⟩],
            numcst_rssi := (0, 0, 0) } 100).numcst_rssi = (0, 0, 0)) ∧
      (spec_nonexpired_rssi [⟨1000, 10⟩, ⟨1000, 4⟩] 100 ≠ [] →
        (numcst_rssi_calc
          { numcst_rssi_rec_tm := 0,
            numcst_rssi_rec := [⟨1000, 10⟩, ⟨1000, 4⟩],
            numcst_rssi := (0, 0, 0) } 100).numcst_rssi.1 =
          Int.tdiv (spec_nonexpired_rssi [⟨1000, 10⟩, ⟨1000, 4⟩] 100).sum
            (spec_nonexpired_rssi [⟨1000, 10⟩, ⟨1000, 4⟩] 100).length ∧
        (∃ m ∈ spec_nonexpired_rssi [⟨1000, 10⟩, ⟨1000, 4⟩] 100,
          (∀ x ∈ spec_nonexpired_rssi [⟨1000, 10⟩, ⟨1000, 4⟩] 100, m ≤ x) ∧
          (numcst_rssi_calc
            { numcst_rssi_rec_tm := 0,
              numcst_rssi_rec := [⟨1000, 10⟩, ⟨1000, 4⟩],
              numcst_rssi := (0, 0, 0) } 100).numcst_rssi.2.1 =
            (if m = 20 then 0 else m)) ∧
        (∃ M ∈ spec_nonexpired_rssi [⟨1000, 10⟩, ⟨1000, 4⟩] 100,
          (∀ x ∈ spec_nonexpired_rssi [⟨1000, 10⟩, ⟨1000, 4⟩] 100, x ≤ M) ∧
          (numcst_rssi_calc
            { numcst_rssi_rec_tm := 0,
              numcst_rssi_rec := [⟨1000, 10⟩, ⟨1000, 4⟩],
              numcst_rssi := (0, 0, 0) } 100).numcst_rssi.2.2 =
            (if M ≤ -127 then 0 else M)))) :=
  ⟨by decide,
   (C5_rssi_aggregation
     { numcst_rssi_rec_tm := 0,
       numcst_rssi_rec := [⟨1000, 10⟩, ⟨1000, 4⟩],
       numcst_rssi := (0, 0, 0) } 100 (by decide) (by decide)).2.1⟩

/-! ## Advertising-data parser: `sl_bt_data_parse`

The C function walks a TLV byte buffer: byte 0 of each element is its
length (type byte included), byte 1 the AD type, the rest the data.  A
zero length byte ends parsing, an element whose length field extends
past `ad_len` yields `-EBADMSG` without invoking the callback on it, and
otherwise the function returns the number of elements handed to the
callback.  The byte buffer is embedded as `Nat → Nat` read modulo 256
(a `uint8` array); alongside the C return value the model also returns
the list of elements passed to the callback, which the C code hands over
by pointer. -/

/-- Constant EBADMSG of `<errno.h>` (74 on the reference platform; only
its identity matters for the theorems below). -/
def EBADMSG : Int := 74

/-- Embedding of `adv_data_t` as handed to the parser callback. -/
structure adv_data_t where
  type : Nat
  data_len : Nat
  data : List Nat
deriving DecidableEq

/-- Element extracted at `offset`: type byte at `offset + 1`, data the
following `length - 1` bytes (the C code passes `data = NULL`,
`data_len = 0` when `length ≤ 1`; here the empty list). -/
def parseElem (ad_data : Nat → Nat) (offset : Nat) : adv_data_t :=
  { type := ad_data (offset + 1) % 256,
    data_len := if 1 < ad_data offset % 256 then ad_data offset % 256 - 1 else 0,
    data := if 1 < ad_data offset % 256 then
        (List.range (ad_data offset % 256 - 1)).map
          (fun i => ad_data (offset + 2 + i) % 256)
      else [] }

/-- Embedding of the parsing loop of `sl_bt_data_parse`, carrying the C
locals `offset` and `count` plus the (reversed) list of elements already
handed to the callback.  The first `Nat` argument is structural fuel:
each loop iteration advances `offset` by at least 2, so any fuel of at
least `ad_len - offset` (the top-level call passes `ad_len`) makes the
fuel-exhausted branch coincide with the loop's normal
`offset ≥ ad_len` exit, and the embedding computes exactly the C loop. -/
def sl_bt_data_parse_aux (ad_data : Nat → Nat) (ad_len : Nat)
    (callback : adv_data_t → Bool) :
    Nat → Nat → Nat → List adv_data_t → Int × List adv_data_t
  | 0, _, count, acc => ((count : Int), acc.reverse)
  | fuel + 1, offset, count, acc =>
    if offset < ad_len then
      if ad_data offset % 256 = 0 then ((count : Int), acc.reverse)
      else if ad_len < offset + 1 + ad_data offset % 256 then (-EBADMSG, acc.reverse)
      else
        if callback (parseElem ad_data offset) then
          sl_bt_data_parse_aux ad_data ad_len callback fuel
            (offset + 1 + ad_data offset % 256) (count + 1)
            (parseElem ad_data offset :: acc)
        else (((count + 1 : Nat) : Int), (parseElem ad_data offset :: acc).reverse)
    else ((count : Int), acc.reverse)

/-- Embedding of `sl_bt_data_parse(ad_data, ad_len, callback, user_data)`
(the two NULL-pointer guards of the C code cannot arise here).  Returns
the C return value together with the elements handed to the callback. -/
def sl_bt_data_parse (ad_data : Nat → Nat) (ad_len : Nat)
    (callback : adv_data_t → Bool) : Int × List adv_data_t :=
  sl_bt_data_parse_aux ad_data ad_len callback ad_len 0 0 []

theorem parseElem_frame (ad1 ad2 : Nat → Nat) (ad_len offset : Nat)
    (hagree : ∀ i, i < ad_len → ad1 i = ad2 i)
    (hoff : offset < ad_len)
    (hbound : ¬ad_len < offset + 1 + ad1 offset % 256)
    (hlen : ¬ad1 offset % 256 = 0) :
    parseElem ad1 offset = parseElem ad2 offset := by
  have hb : ad2 offset = ad1 offset := (hagree offset hoff).symm
  have ht : ad1 (offset + 1) = ad2 (offset + 1) := hagree (offset + 1) (by omega)
  unfold parseElem
  rw [hb, ht]
  have hdata : (if 1 < ad1 offset % 256 then
      (List.range (ad1 offset % 256 - 1)).map (fun i => ad1 (offset + 2 + i) % 256)
    else []) =
      (if 1 < ad1 offset % 256 then
        (List.range (ad1 offset % 256 - 1)).map (fun i => ad2 (offset + 2 + i) % 256)
      else []) := by
    split_ifs with h1
    · apply List.map_congr_left
      intro i hi
      rw [List.mem_range] at hi
      rw [hagree (offset + 2 + i) (by omega)]
    · rfl
  rw [hdata]

theorem sl_bt_data_parse_aux_frame (ad1 ad2 : Nat → Nat) (ad_len : Nat)
    (cb : adv_data_t → Bool) (hagree : ∀ i, i < ad_len → ad1 i = ad2 i) :
    ∀ fuel offset count acc,
      sl_bt_data_parse_aux ad1 ad_len cb fuel offset count acc =
      sl_bt_data_parse_aux ad2 ad_len cb fuel offset count acc := by
  intro fuel
  induction fuel with
  | zero => intro offset count acc; rfl
  | succ n ih =>
    intro offset count acc
    by_cases hoff : offset < ad_len
    · have hb : ad2 offset = ad1 offset := (hagree offset hoff).symm
      unfold sl_bt_data_parse_aux
      rw [if_pos hoff, if_pos hoff, hb]
      by_cases hz : ad1 offset % 256 = 0
      · rw [if_pos hz, if_pos hz]
      · rw [if_neg hz, if_neg hz]
        by_cases hover : ad_len < offset + 1 + ad1 offset % 256
        · rw [if_pos hover, if_pos hover]
        · rw [if_neg hover, if_neg hover,
            ← parseElem_frame ad1 ad2 ad_len offset hagree hoff hover hz]
          by_cases hcb : cb (parseElem ad1 offset) = true
          · rw [if_pos hcb, if_pos hcb]
            exact ih (offset + 1 + ad1 offset % 256) (count + 1)
              (parseElem ad1 offset :: acc)
          · rw [if_neg hcb, if_neg hcb]
    · unfold sl_bt_data_parse_aux
      rw [if_neg hoff, if_neg hoff]

theorem sl_bt_data_parse_aux_spec (ad : Nat → Nat) (ad_len : Nat)
    (cb : adv_data_t → Bool) :
    ∀ fuel offset count acc,
      ((sl_bt_data_parse_aux ad ad_len cb fuel offset count acc).1 = -EBADMSG ∨
       (sl_bt_data_parse_aux ad ad_len cb fuel offset count acc).1 =
         (count : Int) +
           (sl_bt_data_parse_aux ad ad_len cb fuel offset count acc).2.length -
           acc.length) ∧
      (∀ e ∈ (sl_bt_data_parse_aux ad ad_len cb fuel offset count acc).2,
        e ∈ acc ∨ (e.data.length = e.data_len ∧ e.data_len ≤ 254)) := by
  intro fuel
  induction fuel with
  | zero =>
    intro offset count acc
    refine ⟨Or.inr ?_, fun e he => Or.inl (List.mem_reverse.mp he)⟩
    simp [sl_bt_data_parse_aux]
  | succ n ih =>
    intro offset count acc
    have helem : (parseElem ad offset).data.length = (parseElem ad offset).data_len ∧
        (parseElem ad offset).data_len ≤ 254 := by
      unfold parseElem
      dsimp only
      constructor
      · split_ifs <;> simp
      · have : ad offset % 256 < 256 := Nat.mod_lt _ (by omega)
        split_ifs <;> omega
    by_cases hoff : offset < ad_len
    · unfold sl_bt_data_parse_aux
      rw [if_pos hoff]
      by_cases hz : ad offset % 256 = 0
      · rw [if_pos hz]
        refine ⟨Or.inr ?_, fun e he => Or.inl (List.mem_reverse.mp he)⟩
        simp
      · rw [if_neg hz]
        by_cases hover : ad_len < offset + 1 + ad offset % 256
        · rw [if_pos hover]
          exact ⟨Or.inl rfl, fun e he => Or.inl (List.mem_reverse.mp he)⟩
        · rw [if_neg hover]
          by_cases hcb : cb (parseElem ad offset) = true
          · rw [if_pos hcb]
            obtain ⟨hret, hmem⟩ := ih (offset + 1 + ad offset % 256) (count + 1)
              (parseElem ad offset :: acc)
            refine ⟨?_, fun e he => ?_⟩
            · rcases hret with h | h
              · exact Or.inl h
              · right
                rw [h]
                simp only [List.length_cons]
                push_cast
                ring
            · rcases hmem e he with h | h
              · rcases List.mem_cons.mp h with h1 | h1
                · exact Or.inr (h1 ▸ helem)
                · exact Or.inl h1
              · exact Or.inr h
          · rw [if_neg hcb]
            refine ⟨Or.inr ?_, fun e he => ?_⟩
            · simp only [List.length_reverse, List.length_cons]
              push_cast
              ring
            · rcases List.mem_cons.mp (List.mem_reverse.mp he) with h1 | h1
              · exact Or.inr (h1 ▸ helem)
              · exact Or.inl h1
    · unfold sl_bt_data_parse_aux
      rw [if_neg hoff]
      refine ⟨Or.inr ?_, fun e he => Or.inl (List.mem_reverse.mp he)⟩
      simp

/-- C9: Parser bounds safety.  The parser (a total function: its Lean
embedding terminates by construction, on the measure `ad_len - offset`)
reads only bytes at offsets below the declared length (two buffers
agreeing below `ad_len` parse identically, including every byte handed
to the callback); it either returns `-EBADMSG` or the exact number of
elements handed to the callback, each handed element carrying a data
slice of its declared length (at most 254 bytes); and a zero length byte
at the start terminates parsing with zero elements. -/
theorem C9_parse_bounds_safety :
    (∀ (ad1 ad2 : Nat → Nat) (ad_len : Nat) (cb : adv_data_t → Bool),
      (∀ i, i < ad_len → ad1 i = ad2 i) →
      sl_bt_data_parse ad1 ad_len cb = sl_bt_data_parse ad2 ad_len cb) ∧
    (∀ (ad : Nat → Nat) (ad_len : Nat) (cb : adv_data_t → Bool),
      (sl_bt_data_parse ad ad_len cb).1 = -EBADMSG ∨
      (sl_bt_data_parse ad ad_len cb).1 =
        ((sl_bt_data_parse ad ad_len cb).2.length : Int)) ∧
    (∀ (ad : Nat → Nat) (ad_len : Nat) (cb : adv_data_t → Bool),
      ∀ e ∈ (sl_bt_data_parse ad ad_len cb).2,
        e.data.length = e.data_len ∧ e.data_len ≤ 254) ∧
    (∀ (ad : Nat → Nat) (ad_len : Nat) (cb : adv_data_t → Bool),
      ad 0 % 256 = 0 → sl_bt_data_parse ad ad_len cb = (0, [])) := by
  refine ⟨fun ad1 ad2 ad_len cb hagree => ?_, fun ad ad_len cb => ?_,
    fun ad ad_len cb e he => ?_, fun ad ad_len cb hz => ?_⟩
  · exact sl_bt_data_parse_aux_frame ad1 ad2 ad_len cb hagree ad_len 0 0 []
  · have h := (sl_bt_data_parse_aux_spec ad ad_len cb ad_len 0 0 []).1
    rcases h with h | h
    · exact Or.inl h
    · right
      rw [show sl_bt_data_parse ad ad_len cb =
          sl_bt_data_parse_aux ad ad_len cb ad_len 0 0 [] from rfl, h]
      simp
  · have h := (sl_bt_data_parse_aux_spec ad ad_len cb ad_len 0 0 []).2
    rcases h e he with h1 | h1
    · exact absurd h1 (List.not_mem_nil e)
    · exact h1
  · unfold sl_bt_data_parse
    cases ad_len with
    | zero => rfl
    | succ m =>
      unfold sl_bt_data_parse_aux
      rw [if_pos (by omega), if_pos hz]
      rfl

/-- Witness for C9 at a concrete buffer: two bytes `[2, 1]` declared
with length 1 — the element at offset 0 declares 2 more bytes than the
buffer holds, so parsing returns `-EBADMSG`; the frame part is applied
to two buffers agreeing on the single declared byte. -/
theorem C9_parse_bounds_safety_witness :
    ((∀ i, i < 1 → (fun _ : Nat => 2) i = (fun j : Nat => if j = 0 then 2 else 7) i) →
      sl_bt_data_parse (fun _ : Nat => 2) 1 (fun _ => true) =
      sl_bt_data_parse (fun j : Nat => if j = 0 then 2 else 7) 1 (fun _ => true)) ∧
    (sl_bt_data_parse (fun _ : Nat => 2) 1 (fun _ => true)).1 = -EBADMSG :=
  ⟨(C9_parse_bounds_safety.1 (fun _ : Nat => 2)
      (fun j : Nat => if j = 0 then 2 else 7) 1 (fun _ => true)),
   by decide⟩

/-! ## ScannerProtocol reception: `tst_form_packet_rcv`

Embedding of the burst-test packet handler.  The packed `device_info_t`
wire struct is modelled with its logical fields plus an explicit byte
serialization (little-endian `uint16`/`int16` on the Cortex-M target,
big-endian `uint64` EUI per the `scalar_storage_order` attribute), so
that the C `memcmp` over the 16-byte struct is a comparison of byte
lists.  The `snprintf` log-line writes of the C function are not part of
the modelled state. -/

/-- Embedding of the packed wire struct `device_info_t`. -/
structure device_info_t where
  man_id : Nat
  form_id : Nat
  pre_cnt : Int
  flw_cnt : Nat
  eui_64 : Nat
deriving DecidableEq

/-- Little-endian byte pair of a `uint16`. -/
def u16_bytes (x : Nat) : List Nat := [x % 256, x / 256 % 256]

/-- Little-endian byte pair of an `int16` (two's complement). -/
def i16_bytes (x : Int) : List Nat := u16_bytes (x % 65536).toNat

/-- Big-endian bytes of the `uint64` EUI (the struct carries it
big-endian via `scalar_storage_order`). -/
def u64_be_bytes (x : Nat) : List Nat :=
  [x / 2 ^ 56 % 256, x / 2 ^ 48 % 256, x / 2 ^ 40 % 256, x / 2 ^ 32 % 256,
   x / 2 ^ 24 % 256, x / 2 ^ 16 % 256, x / 2 ^ 8 % 256, x % 256]

/-- The 16 bytes of a `device_info_t` as laid out in memory. -/
def device_info_bytes (d : device_info_t) : List Nat :=
  u16_bytes d.man_id ++ u16_bytes d.form_id ++ i16_bytes d.pre_cnt ++
    u16_bytes d.flw_cnt ++ u64_be_bytes d.eui_64

/-- Embedding of `recv_stats_t` (one-bit flags become `Bool`). -/
structure recv_stats_t where
  node : Nat
  pri_phy : Nat
  sec_phy : Nat
  tx_pwr : Int
  flow : Nat
  subtotal : Nat
  rssi : Int
  rssi_upper : Int
  rssi_lower : Int
  det_sender : Bool
  dump_rcvinfo : Bool
  complete : Bool
  notified : Bool
deriving DecidableEq

/-- Embedding of `rcv_stamp_t` (the C field `rec` is called `recd` here,
`rec` being reserved in Lean for the recursor). -/
structure rcv_stamp_t where
  recd : recv_stats_t
  rssi_acc : Int
  rssi_idx : Int
deriving DecidableEq

/-- Embedding of `memcmp(a, b, offsetof(recv_stats_t, flow)) == 0`:
equality of the fields laid out before `flow` (node, pri_phy, sec_phy,
tx_pwr; the single padding byte is zero on both sides in every call
site, both records being zero-initialized at creation). -/
def stamp_id_eq (a b : recv_stats_t) : Bool :=
  a.node == b.node && a.pri_phy == b.pri_phy && a.sec_phy == b.sec_phy &&
    a.tx_pwr == b.tx_pwr

/-- Embedding of
`memcmp(a, b, sizeof(flow) + offsetof(recv_stats_t, flow)) == 0`: the
fields before `flow` plus `flow` itself. -/
def stamp_hdr_eq (a b : recv_stats_t) : Bool :=
  stamp_id_eq a b && a.flow == b.flow

/-- Embedding of `rssi_avg_procedure(stamp_p, rssi_val)` (running
average with truncating division, plus min/max update). -/
def rssi_avg_procedure (stamp : rcv_stamp_t) (rssi_val : Int) : rcv_stamp_t :=
  let upper := if rssi_val > stamp.recd.rssi_upper then rssi_val else stamp.recd.rssi_upper
  let lower := if rssi_val < stamp.recd.rssi_lower then rssi_val else stamp.recd.rssi_lower
  let acc := stamp.rssi_acc + rssi_val
  let idx := stamp.rssi_idx + 1
  { stamp with
    recd := { stamp.recd with
                rssi_upper := upper
                rssi_lower := lower
                rssi := Int.tdiv acc idx }
    rssi_acc := acc
    rssi_idx := idx }

/-- Embedding of `rssi_idx_init(stamp_p, rssi_val)` (statistics reset to
a single sample; min/max sentinels re-armed). -/
def rssi_idx_init (stamp : rcv_stamp_t) (rssi_val : Int) : rcv_stamp_t :=
  { stamp with
    recd := { stamp.recd with
                rssi := rssi_val
                rssi_upper := INT16_MIN
                rssi_lower := INT16_MAX }
    rssi_acc := rssi_val
    rssi_idx := 1 }

/-- Embedding of `sl_adv_info_t` (the address fields play no role in the
modelled paths). -/
structure sl_adv_info_t where
  rssi : Int
  tx_power : Int
  prim_phy : Nat
  sec_phy : Nat
deriving DecidableEq

/-- PHY pair to channel index classification shared by
`tst_form_packet_rcv`, `numcast_parser` and `device_found`. -/
def phy_index (prim sec : Nat) : Option (Fin 4) :=
  if prim = 1 ∧ sec = 2 then some 0
  else if prim = 1 ∧ sec = 1 then some 1
  else if prim = 3 ∧ sec = 3 then some 2
  else if prim = 1 ∧ sec = 0 then some 3
  else none

/-- The globals of `losstst_svc.c` read or written by
`tst_form_packet_rcv` (per-channel arrays become `Fin 4`-indexed
functions; the `rcv_msg_str` log buffers are not modelled). -/
structure ScanState where
  losstst_task_val : Int
  scanner_inactive : Bool
  round_phy_sel : Fin 4 → Bool
  device_info_form : Fin 4 → device_info_t
  ack_remote_resp : Fin 4 → Bool
  rcv_stamp : Fin 4 → rcv_stamp_t
  rec_sets : Fin 4 → recv_stats_t
  sub_total_rcv : Fin 4 → Nat
  precnt_rcv : Fin 4 → Int
  remote_resp_form : Fin 4 → device_info_t
  rcv_ratio_val : Fin 4 → Nat × Nat
  rcv_rssi_val : Fin 4 → Int × Int × Int
  peek_rcv_rssi : Fin 4 → Int × Int × Int
  remote_tx_pwr : Fin 4 → Int
  sndr_id : Nat
  sndr_txpower : Int

/-- First dispatch of `tst_form_packet_rcv` on `form_p->pre_cnt` (the
`else if` ladder at the `INT16_MIN` / burst-count / other split),
returning the updated globals, the local `rcv_stamp_lc` and the local
`subtotal`. -/
def tst_precnt_dispatch (s : ScanState) (index : Fin 4)
    (form_p : device_info_t) (lc1 : rcv_stamp_t) (info_rssi : Int) :
    ScanState × rcv_stamp_t × Nat :=
  if form_p.pre_cnt = INT16_MIN then
    let lc2 :=
      if ¬stamp_hdr_eq (s.rcv_stamp index).recd lc1.recd = true then
        rssi_idx_init
          { lc1 with recd := { lc1.recd with subtotal := 0, det_sender := true } }
          info_rssi
      else
        rssi_avg_procedure
          { lc1 with recd := { lc1.recd with det_sender := true } } info_rssi
    ({ s with
        rcv_stamp := Function.update s.rcv_stamp index lc2,
        rec_sets := Function.update s.rec_sets index lc2.recd,
        sub_total_rcv := Function.update s.sub_total_rcv index 0 },
     lc2, 0)
  else if 0 < form_p.pre_cnt ∧ form_p.pre_cnt ≠ INT16_MAX then
    let subtotal := s.sub_total_rcv index + 1
    ({ s with
        sub_total_rcv := Function.update s.sub_total_rcv index subtotal,
        rcv_ratio_val := Function.update s.rcv_ratio_val index
          (subtotal, LOSS_TEST_BURST_COUNT * lc1.recd.flow),
        precnt_rcv := Function.update s.precnt_rcv index form_p.pre_cnt,
        sndr_id := lc1.recd.node,
        sndr_txpower := lc1.recd.tx_pwr },
     lc1, subtotal)
  else
    let subtotal := s.sub_total_rcv index
    ({ s with
        rcv_ratio_val := Function.update s.rcv_ratio_val index
          (subtotal, LOSS_TEST_BURST_COUNT * lc1.recd.flow),
        sndr_id := lc1.recd.node,
        sndr_txpower := lc1.recd.tx_pwr },
     lc1, subtotal)

/-- Common RSSI-statistics section of `tst_form_packet_rcv` (from the
"Update RSSI statistics if flow is valid and matches" comment to the end
of the function, the log-line writes excepted). -/
def tst_rssi_update (s1 : ScanState) (index : Fin 4)
    (form_p : device_info_t) (lc2 : rcv_stamp_t) (subtotal : Nat)
    (info_rssi : Int) : ScanState :=
  if lc2.recd.flow = 0 ∨ 201 < lc2.recd.flow then s1
  else if stamp_id_eq (s1.rcv_stamp index).recd lc2.recd = true then
    if (s1.rcv_stamp index).recd.flow = lc2.recd.flow then
      -- same sender, same session
      let lc3 := rssi_avg_procedure
        { (s1.rcv_stamp index) with
          recd := { (s1.rcv_stamp index).recd with subtotal := subtotal } }
        info_rssi
      let upd : ScanState × rcv_stamp_t :=
        if form_p.pre_cnt = INT16_MAX ∧ ¬lc3.recd.complete = true then
          let lc4 := { lc3 with recd := { lc3.recd with complete := true } }
          ({ s1 with rec_sets := Function.update s1.rec_sets index lc4.recd },
           lc4)
        else if form_p.pre_cnt = 0 then
          let lc4 := if ¬lc3.recd.dump_rcvinfo = true then
              { lc3 with recd := { lc3.recd with dump_rcvinfo := true } }
            else lc3
          ({ s1 with
              precnt_rcv := Function.update s1.precnt_rcv index 0,
              remote_resp_form := Function.update s1.remote_resp_form index form_p,
              rec_sets := Function.update s1.rec_sets index lc4.recd },
           lc4)
        else if form_p.pre_cnt < 0 then
          ({ s1 with
              precnt_rcv := Function.update s1.precnt_rcv index form_p.pre_cnt },
           lc3)
        else (s1, lc3)
      let s2 := upd.1
      let lc4 := upd.2
      let rv : Int × Int × Int :=
        (lc4.recd.rssi,
         if lc4.rssi_idx ≤ 1 then lc4.recd.rssi else lc4.recd.rssi_lower,
         if lc4.rssi_idx ≤ 1 then lc4.recd.rssi else lc4.recd.rssi_upper)
      { s2 with
        rcv_stamp := Function.update s2.rcv_stamp index lc4,
        rcv_rssi_val := Function.update s2.rcv_rssi_val index rv,
        peek_rcv_rssi := Function.update s2.peek_rcv_rssi index rv }
    else
      -- new flow from the same sender
      let old := s1.rcv_stamp index
      let oldrssi := Int.tdiv old.rssi_acc old.rssi_idx
      let rv : Int × Int × Int :=
        (oldrssi,
         if old.rssi_idx ≤ 1 then oldrssi else old.recd.rssi_lower,
         if old.rssi_idx ≤ 1 then oldrssi else old.recd.rssi_upper)
      let oldrec1 := { old.recd with rssi := oldrssi }
      let upd : ScanState × recv_stats_t :=
        if ¬oldrec1.dump_rcvinfo = true then
          let oldrec2 := { oldrec1 with dump_rcvinfo := true }
          ({ s1 with rec_sets := Function.update s1.rec_sets index oldrec2 },
           oldrec2)
        else (s1, oldrec1)
      let lc3 := rssi_idx_init lc2 info_rssi
      { upd.1 with
        rcv_stamp := Function.update upd.1.rcv_stamp index lc3,
        rcv_rssi_val := Function.update upd.1.rcv_rssi_val index rv,
        peek_rcv_rssi := Function.update upd.1.peek_rcv_rssi index rv,
        remote_tx_pwr := Function.update upd.1.remote_tx_pwr index
          old.recd.tx_pwr }
  else
    -- new sender detected (log line written, not modelled)
    let lc3 := rssi_idx_init lc2 info_rssi
    { s1 with rcv_stamp := Function.update s1.rcv_stamp index lc3 }

/-- Embedding of `tst_form_packet_rcv(info_p, form_p)` as a state
transformer.  Each `let` mirrors one statement block of the C function;
the local `rcv_stamp_lc` is threaded through explicitly, and the C
designated initializer zero-fills the unnamed fields of the local. -/
def tst_form_packet_rcv (s : ScanState) (info_p : sl_adv_info_t)
    (form_p : device_info_t) : ScanState :=
  let lc0 : rcv_stamp_t :=
    { recd := { node := form_p.eui_64 % 65536
                pri_phy := info_p.prim_phy
                sec_phy := info_p.sec_phy
                tx_pwr := 0
                flow := 0
                subtotal := 0
                rssi := 0
                rssi_upper := INT16_MIN
                rssi_lower := INT16_MAX
                det_sender := false
                dump_rcvinfo := false
                complete := false
                notified := false }
      rssi_acc := 0
      rssi_idx := 0 }
  let info_rssi : Int := if 20 < info_p.rssi then -128 else info_p.rssi
  match phy_index info_p.prim_phy info_p.sec_phy with
  | none => s
  | some index =>
    if (sender_task_tgr s.losstst_task_val 0).1 ≠ 0 then
      -- sender mode: acknowledgment detection, then return
      if device_info_bytes (s.device_info_form index) = device_info_bytes form_p then
        { s with ack_remote_resp := Function.update s.ack_remote_resp index true }
      else s
    else if (scanner_task_tgr s.losstst_task_val 0).1 = 0 ∨
        s.scanner_inactive = true ∨ s.round_phy_sel index = false then s
    else
      let lc1 : rcv_stamp_t :=
        { lc0 with recd := { lc0.recd with
                              tx_pwr := info_p.tx_power
                              flow := form_p.flw_cnt } }
      if 201 < lc1.recd.flow then s
      else
        let branch := tst_precnt_dispatch s index form_p lc1 info_rssi
        tst_rssi_update branch.1 index form_p branch.2.1 branch.2.2 info_rssi

/-- C7: New-sender record creation.  When the active Scanner receives a
valid `DeviceInfo` packet with `pre_cnt = INT16_MIN` (a round-start
preset, which per `sender_setup` carries `flw_cnt = 0`) whose sender
identity does not match the current reception record for that channel,
a new record is created for the channel carrying the packet's identity,
with subtotal 0, the detected-sender flag set, the per-channel received
subtotal reset to 0, and the RSSI statistics initialized to exactly the
single received sample (current RSSI equals the sample, sample count 1);
the published `rec_sets` entry mirrors the new record. -/
theorem C7_new_sender_record (s : ScanState) (info_p : sl_adv_info_t)
    (form_p : device_info_t) (index : Fin 4)
    (hphy : phy_index info_p.prim_phy info_p.sec_phy = some index)
    (hscan : s.losstst_task_val = 2)
    (hact : s.scanner_inactive = false)
    (hsel : s.round_phy_sel index = true)
    (hpre : form_p.pre_cnt = INT16_MIN)
    (hflw : form_p.flw_cnt = 0)
    (hrssi : info_p.rssi ≤ 20)
    (hmismatch : (s.rcv_stamp index).recd.node ≠ form_p.eui_64 % 65536) :
    ((tst_form_packet_rcv s info_p form_p).rcv_stamp index).recd.node =
      form_p.eui_64 % 65536 ∧
    ((tst_form_packet_rcv s info_p form_p).rcv_stamp index).recd.subtotal = 0 ∧
    ((tst_form_packet_rcv s info_p form_p).rcv_stamp index).recd.det_sender = true ∧
    (tst_form_packet_rcv s info_p form_p).sub_total_rcv index = 0 ∧
    ((tst_form_packet_rcv s info_p form_p).rcv_stamp index).recd.rssi = info_p.rssi ∧
    ((tst_form_packet_rcv s info_p form_p).rcv_stamp index).rssi_acc = info_p.rssi ∧
    ((tst_form_packet_rcv s info_p form_p).rcv_stamp index).rssi_idx = 1 ∧
    (tst_form_packet_rcv s info_p form_p).rec_sets index =
      ((tst_form_packet_rcv s info_p form_p).rcv_stamp index).recd := by
  have hsend : ¬((sender_task_tgr s.losstst_task_val 0).1 ≠ 0) := by
    rw [hscan]; decide
  have hscn : ¬((scanner_task_tgr s.losstst_task_val 0).1 = 0 ∨
      s.scanner_inactive = true ∨ s.round_phy_sel index = false) := by
    rw [hscan, hact, hsel]
    push_neg
    exact ⟨by decide, by decide, by decide⟩
  have hhdr : stamp_hdr_eq (s.rcv_stamp index).recd
      { node := form_p.eui_64 % 65536
        pri_phy := info_p.prim_phy
        sec_phy := info_p.sec_phy
        tx_pwr := info_p.tx_power
        flow := form_p.flw_cnt
        subtotal := 0
        rssi := 0
        rssi_upper := INT16_MIN
        rssi_lower := INT16_MAX
        det_sender := false
        dump_rcvinfo := false
        complete := false
        notified := false } = false := by
    unfold stamp_hdr_eq stamp_id_eq
    simp [hmismatch]
  have hs : tst_form_packet_rcv s info_p form_p =
      { s with
        rcv_stamp := Function.update s.rcv_stamp index
          { recd := { node := form_p.eui_64 % 65536
                      pri_phy := info_p.prim_phy
                      sec_phy := info_p.sec_phy
                      tx_pwr := info_p.tx_power
                      flow := form_p.flw_cnt
                      subtotal := 0
                      rssi := info_p.rssi
                      rssi_upper := INT16_MIN
                      rssi_lower := INT16_MAX
                      det_sender := true
                      dump_rcvinfo := false
                      complete := false
                      notified := false }
            rssi_acc := info_p.rssi
            rssi_idx := 1 }
        rec_sets := Function.update s.rec_sets index
          { node := form_p.eui_64 % 65536
            pri_phy := info_p.prim_phy
            sec_phy := info_p.sec_phy
            tx_pwr := info_p.tx_power
            flow := form_p.flw_cnt
            subtotal := 0
            rssi := info_p.rssi
            rssi_upper := INT16_MIN
            rssi_lower := INT16_MAX
            det_sender := true
            dump_rcvinfo := false
            complete := false
            notified := false }
        sub_total_rcv := Function.update s.sub_total_rcv index 0 } := by
    have hdisp : tst_precnt_dispatch s index form_p
        { recd := { node := form_p.eui_64 % 65536
                    pri_phy := info_p.prim_phy
                    sec_phy := info_p.sec_phy
                    tx_pwr := info_p.tx_power
                    flow := form_p.flw_cnt
                    subtotal := 0
                    rssi := 0
                    rssi_upper := INT16_MIN
                    rssi_lower := INT16_MAX
                    det_sender := false
                    dump_rcvinfo := false
                    complete := false
                    notified := false }
          rssi_acc := 0
          rssi_idx := 0 } info_p.rssi =
        ({ s with
            rcv_stamp := Function.update s.rcv_stamp index
              { recd := { node := form_p.eui_64 % 65536
                          pri_phy := info_p.prim_phy
                          sec_phy := info_p.sec_phy
                          tx_pwr := info_p.tx_power
                          flow := form_p.flw_cnt
                          subtotal := 0
                          rssi := info_p.rssi
                          rssi_upper := INT16_MIN
                          rssi_lower := INT16_MAX
                          det_sender := true
                          dump_rcvinfo := false
                          complete := false
                          notified := false }
                rssi_acc := info_p.rssi
                rssi_idx := 1 }
            rec_sets := Function.update s.rec_sets index
              { node := form_p.eui_64 % 65536
                pri_phy := info_p.prim_phy
                sec_phy := info_p.sec_phy
                tx_pwr := info_p.tx_power
                flow := form_p.flw_cnt
                subtotal := 0
                rssi := info_p.rssi
                rssi_upper := INT16_MIN
                rssi_lower := INT16_MAX
                det_sender := true
                dump_rcvinfo := false
                complete := false
                notified := false }
            sub_total_rcv := Function.update s.sub_total_rcv index 0 },
         { recd := { node := form_p.eui_64 % 65536
                     pri_phy := info_p.prim_phy
                     sec_phy := info_p.sec_phy
                     tx_pwr := info_p.tx_power
                     flow := form_p.flw_cnt
                     subtotal := 0
                     rssi := info_p.rssi
                     rssi_upper := INT16_MIN
                     rssi_lower := INT16_MAX
                     det_sender := true
                     dump_rcvinfo := false
                     complete := false
                     notified := false }
           rssi_acc := info_p.rssi
           rssi_idx := 1 }, 0) := by
      have hcond : ¬stamp_hdr_eq (s.rcv_stamp index).recd
          ({ recd := { node := form_p.eui_64 % 65536
                       pri_phy := info_p.prim_phy
                       sec_phy := info_p.sec_phy
                       tx_pwr := info_p.tx_power
                       flow := form_p.flw_cnt
                       subtotal := 0
                       rssi := 0
                       rssi_upper := INT16_MIN
                       rssi_lower := INT16_MAX
                       det_sender := false
                       dump_rcvinfo := false
                       complete := false
                       notified := false }
             rssi_acc := 0
             rssi_idx := 0 } : rcv_stamp_t).recd = true := by
        have h2 : stamp_hdr_eq (s.rcv_stamp index).recd
            ({ recd := { node := form_p.eui_64 % 65536
                         pri_phy := info_p.prim_phy
                         sec_phy := info_p.sec_phy
                         tx_pwr := info_p.tx_power
                         flow := form_p.flw_cnt
                         subtotal := 0
                         rssi := 0
                         rssi_upper := INT16_MIN
                         rssi_lower := INT16_MAX
                         det_sender := false
                         dump_rcvinfo := false
                         complete := false
                         notified := false }
               rssi_acc := 0
               rssi_idx := 0 } : rcv_stamp_t).recd = false := hhdr
        simp [h2]
      unfold tst_precnt_dispatch
      rw [if_pos hpre, if_pos hcond]
      unfold rssi_idx_init
      rfl
    unfold tst_form_packet_rcv
    rw [hphy]
    dsimp only
    rw [if_neg hsend, if_neg hscn, if_neg (show ¬201 < form_p.flw_cnt by
        rw [hflw]; decide), if_neg (not_lt.mpr hrssi), hdisp]
    dsimp only
    unfold tst_rssi_update
    rw [if_pos (Or.inl (show form_p.flw_cnt = 0 from hflw))]
  rw [hs]
  simp [Function.update_same]

/-- Witness for C7: scanner active, previously idle reception record, a
preset packet from EUI 0x1122 at -40 dBm on the 2M PHY channel. -/
theorem C7_new_sender_record_witness :
    phy_index 1 2 = some 0 ∧
    ((tst_form_packet_rcv
        { losstst_task_val := 2
          scanner_inactive := false
          round_phy_sel := fun _ => true
          device_info_form := fun _ =>
            { man_id := 65535, form_id := 0, pre_cnt := 0, flw_cnt := 0, eui_64 := 7 }
          ack_remote_resp := fun _ => false
          rcv_stamp := fun _ =>
            { recd := { node := 0
                        pri_phy := 0
                        sec_phy := 0
                        tx_pwr := 0
                        flow := 0
                        subtotal := 0
                        rssi := 0
                        rssi_upper := 0
                        rssi_lower := 0
                        det_sender := false
                        dump_rcvinfo := false
                        complete := false
                        notified := false }
              rssi_acc := 0
              rssi_idx := 0 }
          rec_sets := fun _ =>
            { node := 0
              pri_phy := 0
              sec_phy := 0
              tx_pwr := 0
              flow := 0
              subtotal := 0
              rssi := 0
              rssi_upper := 0
              rssi_lower := 0
              det_sender := false
              dump_rcvinfo := false
              complete := false
              notified := false }
          sub_total_rcv := fun _ => 5
          precnt_rcv := fun _ => 0
          remote_resp_form := fun _ =>
            { man_id := 65535, form_id := 0, pre_cnt := 0, flw_cnt := 0, eui_64 := 7 }
          rcv_ratio_val := fun _ => (0, 0)
          rcv_rssi_val := fun _ => (0, 0, 0)
          peek_rcv_rssi := fun _ => (0, 0, 0)
          remote_tx_pwr := fun _ => 0
          sndr_id := 0
          sndr_txpower := 0 }
        { rssi := -40, tx_power := 4, prim_phy := 1, sec_phy := 2 }
        { man_id := 65535, form_id := 0, pre_cnt := INT16_MIN, flw_cnt := 0,
          eui_64 := 4386 }).rcv_stamp 0).recd.node = 4386 % 65536 ∧
    ((tst_form_packet_rcv
        { losstst_task_val := 2
          scanner_inactive := false
          round_phy_sel := fun _ => true
          device_info_form := fun _ =>
            { man_id := 65535, form_id := 0, pre_cnt := 0, flw_cnt := 0, eui_64 := 7 }
          ack_remote_resp := fun _ => false
          rcv_stamp := fun _ =>
            { recd := { node := 0
                        pri_phy := 0
                        sec_phy := 0
                        tx_pwr := 0
                        flow := 0
                        subtotal := 0
                        rssi := 0
                        rssi_upper := 0
                        rssi_lower := 0
                        det_sender := false
                        dump_rcvinfo := false
                        complete := false
                        notified := false }
              rssi_acc := 0
              rssi_idx := 0 }
          rec_sets := fun _ =>
            { node := 0
              pri_phy := 0
              sec_phy := 0
              tx_pwr := 0
              flow := 0
              subtotal := 0
              rssi := 0
              rssi_upper := 0
              rssi_lower := 0
              det_sender := false
              dump_rcvinfo := false
              complete := false
              notified := false }
          sub_total_rcv := fun _ => 5
          precnt_rcv := fun _ => 0
          remote_resp_form := fun _ =>
            { man_id := 65535, form_id := 0, pre_cnt := 0, flw_cnt := 0, eui_64 := 7 }
          rcv_ratio_val := fun _ => (0, 0)
          rcv_rssi_val := fun _ => (0, 0, 0)
          peek_rcv_rssi := fun _ => (0, 0, 0)
          remote_tx_pwr := fun _ => 0
          sndr_id := 0
          sndr_txpower := 0 }
        { rssi := -40, tx_power := 4, prim_phy := 1, sec_phy := 2 }
        { man_id := 65535, form_id := 0, pre_cnt := INT16_MIN, flw_cnt := 0,
          eui_64 := 4386 }).rcv_stamp 0).rssi_idx = 1 := by
  refine ⟨by decide, ?_, ?_⟩
  · exact (C7_new_sender_record _ _ _ 0 (by decide) rfl rfl rfl rfl rfl
      (by decide) (by decide)).1
  · exact (C7_new_sender_record _ _ _ 0 (by decide) rfl rfl rfl rfl rfl
      (by decide) (by decide)).2.2.2.2.2.2.1

/-- C10: Sender-side acknowledgment matching.  While the Sender role is
active, a received test-form packet leaves the per-channel flag
`ack_remote_resp[index]` set exactly when it was already set or the
16-byte `DeviceInfo` payload is byte-for-byte identical to the Sender's
own current `DeviceInfo` for that channel (the serialization is 16 bytes
long); the flags of other channels and every scanner reception statistic
and record are unchanged. -/
theorem C10_sender_ack_matching (s : ScanState) (info_p : sl_adv_info_t)
    (form_p : device_info_t) (index : Fin 4)
    (hphy : phy_index info_p.prim_phy info_p.sec_phy = some index)
    (hsender : s.losstst_task_val = 1) :
    ((tst_form_packet_rcv s info_p form_p).ack_remote_resp index = true ↔
      (s.ack_remote_resp index = true ∨
        device_info_bytes form_p = device_info_bytes (s.device_info_form index))) ∧
    (∀ j : Fin 4, j ≠ index →
      (tst_form_packet_rcv s info_p form_p).ack_remote_resp j =
        s.ack_remote_resp j) ∧
    (device_info_bytes form_p).length = 16 ∧
    (tst_form_packet_rcv s info_p form_p).rcv_stamp = s.rcv_stamp ∧
    (tst_form_packet_rcv s info_p form_p).rec_sets = s.rec_sets ∧
    (tst_form_packet_rcv s info_p form_p).sub_total_rcv = s.sub_total_rcv ∧
    (tst_form_packet_rcv s info_p form_p).precnt_rcv = s.precnt_rcv ∧
    (tst_form_packet_rcv s info_p form_p).rcv_ratio_val = s.rcv_ratio_val ∧
    (tst_form_packet_rcv s info_p form_p).rcv_rssi_val = s.rcv_rssi_val ∧
    (tst_form_packet_rcv s info_p form_p).peek_rcv_rssi = s.peek_rcv_rssi ∧
    (tst_form_packet_rcv s info_p form_p).remote_tx_pwr = s.remote_tx_pwr ∧
    (tst_form_packet_rcv s info_p form_p).remote_resp_form = s.remote_resp_form ∧
    (tst_form_packet_rcv s info_p form_p).sndr_id = s.sndr_id ∧
    (tst_form_packet_rcv s info_p form_p).sndr_txpower = s.sndr_txpower := by
  have hsend : (sender_task_tgr s.losstst_task_val 0).1 ≠ 0 := by
    rw [hsender]; decide
  have hlen16 : (device_info_bytes form_p).length = 16 := by
    simp [device_info_bytes, u16_bytes, i16_bytes, u64_be_bytes]
  have hs : tst_form_packet_rcv s info_p form_p =
      (if device_info_bytes (s.device_info_form index) = device_info_bytes form_p
       then { s with
               ack_remote_resp := Function.update s.ack_remote_resp index true }
       else s) := by
    unfold tst_form_packet_rcv
    rw [hphy]
    dsimp only
    rw [if_pos hsend]
  by_cases heq : device_info_bytes (s.device_info_form index) =
      device_info_bytes form_p
  · rw [hs, if_pos heq]
    refine ⟨?_, fun j hj => Function.update_noteq hj _ _, hlen16,
      rfl, rfl, rfl, rfl, rfl, rfl, rfl, rfl, rfl, rfl, rfl⟩
    simp [Function.update_same, heq.symm]
  · rw [hs, if_neg heq]
    refine ⟨?_, fun j hj => rfl, hlen16,
      rfl, rfl, rfl, rfl, rfl, rfl, rfl, rfl, rfl, rfl, rfl⟩
    constructor
    · exact fun h => Or.inl h
    · rintro (h | h)
      · exact h
      · exact absurd h.symm heq

/-- Witness for C10: sender active, the received payload equal to the
sender's own channel-0 `DeviceInfo`; the flag for channel 0 ends up
set. -/
theorem C10_sender_ack_matching_witness :
    phy_index 1 2 = some 0 ∧
    ((tst_form_packet_rcv
        { losstst_task_val := 1
          scanner_inactive := false
          round_phy_sel := fun _ => true
          device_info_form := fun _ =>
            { man_id := 65535, form_id := 0, pre_cnt := 0, flw_cnt := 4, eui_64 := 7 }
          ack_remote_resp := fun _ => false
          rcv_stamp := fun _ =>
            { recd := { node := 0
                        pri_phy := 0
                        sec_phy := 0
                        tx_pwr := 0
                        flow := 0
                        subtotal := 0
                        rssi := 0
                        rssi_upper := 0
                        rssi_lower := 0
                        det_sender := false
                        dump_rcvinfo := false
                        complete := false
                        notified := false }
              rssi_acc := 0
              rssi_idx := 0 }
          rec_sets := fun _ =>
            { node := 0
              pri_phy := 0
              sec_phy := 0
              tx_pwr := 0
              flow := 0
              subtotal := 0
              rssi := 0
              rssi_upper := 0
              rssi_lower := 0
              det_sender := false
              dump_rcvinfo := false
              complete := false
              notified := false }
          sub_total_rcv := fun _ => 5
          precnt_rcv := fun _ => 0
          remote_resp_form := fun _ =>
            { man_id := 65535, form_id := 0, pre_cnt := 0, flw_cnt := 4, eui_64 := 7 }
          rcv_ratio_val := fun _ => (0, 0)
          rcv_rssi_val := fun _ => (0, 0, 0)
          peek_rcv_rssi := fun _ => (0, 0, 0)
          remote_tx_pwr := fun _ => 0
          sndr_id := 0
          sndr_txpower := 0 }
        { rssi := -40, tx_power := 4, prim_phy := 1, sec_phy := 2 }
        { man_id := 65535, form_id := 0, pre_cnt := 0, flw_cnt := 4,
          eui_64 := 7 }).ack_remote_resp 0 = true ↔
      ((fun _ : Fin 4 => false) 0 = true ∨
        device_info_bytes
          { man_id := 65535, form_id := 0, pre_cnt := 0, flw_cnt := 4, eui_64 := 7 } =
        device_info_bytes
          ((fun _ : Fin 4 =>
            ({ man_id := 65535, form_id := 0, pre_cnt := 0, flw_cnt := 4,
               eui_64 := 7 } : device_info_t)) 0))) := by
  refine ⟨by decide, ?_⟩
  exact (C10_sender_ack_matching _
    { rssi := -40, tx_power := 4, prim_phy := 1, sec_phy := 2 }
    { man_id := 65535, form_id := 0, pre_cnt := 0, flw_cnt := 4, eui_64 := 7 }
    0 (by decide) rfl).1

/-! ## SenderProtocol: one cycle of `losstst_sender`

The periodic driver `losstst_sender` is a timed loop: a 3-second
pre-burst countdown (one `pre_cnt` assignment per second), a fixed
250-event burst during which `pre_cnt` carries decreasing
seconds-remaining (one decrement per elapsed second until the radio
reports the burst exhausted), a post-burst report, the acknowledgment
wait (modelled separately above), and a completion check.  The embedding
keeps the state the loop reads and writes and abstracts real time into
one parameter: `k`, the number of one-second countdown updates observed
during the burst wait.  The burst wait lasts at most
`period_msec = 250 * interval_max` ms (its deadline), and the first
update fires 1000 ms in, so `k ≤ period_msec / 1000 < period_sec`; the
theorems carry that bound as a hypothesis.  The abort predicate is the
constant `false` (an un-aborted cycle); the radio calls (`update_adv`,
`blocking_adv`) and status-message regeneration are side effects outside
the modelled state.  Alongside the new state the embedding returns, per
channel, the list of values assigned to `device_info_form[i].pre_cnt`
during the call, in program order, and the C return value. -/

/-- The `value_interval` table (ms): pairs (min, max) for the 11
advertising interval classes.  Indexes beyond the table (which the C
code would read out of bounds) return (0, 0); the theorems restrict the
index to the table. -/
def value_interval : Nat → Nat × Nat
  | 0 => (30, 60)
  | 1 => (60, 120)
  | 2 => (90, 180)
  | 3 => (100, 150)
  | 4 => (200, 300)
  | 5 => (300, 450)
  | 6 => (500, 650)
  | 7 => (750, 950)
  | 8 => (1000, 1200)
  | 9 => (2000, 2400)
  | 10 => (3000, 3600)
  | _ => (0, 0)

/-- The globals of `losstst_svc.c` that `losstst_sender` reads and
writes (the four scalar subtotal counters kept as scalars, per-channel
arrays as `Fin 4`-indexed functions). -/
structure SenderState where
  sub_total_snd_2m : Nat
  sub_total_snd_1m : Nat
  sub_total_snd_s8 : Nat
  sub_total_snd_ble4 : Nat
  round_total_num : Nat
  round_phy_sel : Fin 4 → Bool
  round_adv_param_index : Nat
  pre_cnt : Fin 4 → Int
  flw_cnt : Fin 4 → Nat
  snd_state_val : Fin 4 → Int
  ack_remote_resp : Fin 4 → Bool
  ignore_rcv_resp : Bool

/-- The per-channel sent subtotal (`sub_total_snd_2m` for index 0,
`_1m` for 1, `_s8` for 2, `_ble4` for 3). -/
def sub_total_snd (s : SenderState) (i : Fin 4) : Nat :=
  if i = 0 then s.sub_total_snd_2m
  else if i = 1 then s.sub_total_snd_1m
  else if i = 2 then s.sub_total_snd_s8
  else s.sub_total_snd_ble4

/-- Local `sub_phy0` of `losstst_sender`. -/
def sender_sub_phy0 (s : SenderState) : Nat :=
  if s.round_phy_sel 0 then s.sub_total_snd_2m else s.round_total_num

/-- Local `sub_phy1` of `losstst_sender` (after the MIN step). -/
def sender_sub_phy1 (s : SenderState) : Nat :=
  min (if s.round_phy_sel 1 then s.sub_total_snd_1m else s.round_total_num)
    (sender_sub_phy0 s)

/-- Local `sub_phy2` of `losstst_sender`. -/
def sender_sub_phy2 (s : SenderState) : Nat :=
  if s.round_phy_sel 2 then s.sub_total_snd_s8 else s.round_total_num

/-- The per-cycle channel selection `lc_phy_sel`: the 1M/2M/Legacy group
when it is not ahead of the Coded channel, the Coded channel alone
otherwise. -/
def sender_lc_phy_sel (s : SenderState) (i : Fin 4) : Bool :=
  if sender_sub_phy1 s ≤ sender_sub_phy2 s then
    if i = 2 then false else s.round_phy_sel i
  else
    if i = 2 then s.round_phy_sel 2 else false

/-- The guard of the active branch of `losstst_sender`: some selected
channel still needs transmissions. -/
def sender_need_more (s : SenderState) : Prop :=
  (sender_lc_phy_sel s 0 = true ∧ s.sub_total_snd_2m < s.round_total_num) ∨
  (sender_lc_phy_sel s 1 = true ∧ s.sub_total_snd_1m < s.round_total_num) ∨
  (sender_lc_phy_sel s 2 = true ∧ s.sub_total_snd_s8 < s.round_total_num) ∨
  (sender_lc_phy_sel s 3 = true ∧ s.sub_total_snd_ble4 < s.round_total_num)

instance (s : SenderState) : Decidable (sender_need_more s) := by
  unfold sender_need_more
  infer_instance

/-- One invocation of `losstst_sender` with the abort predicate constant
false, returning (new state, per-channel `pre_cnt` assignment trace,
C return value). -/
def losstst_sender_cycle (s : SenderState) (k : Nat) :
    SenderState × (Fin 4 → List Int) × Int :=
  let sel := sender_lc_phy_sel s
  if sender_need_more s then
    -- Phase 1: pre-burst countdown: pre_cnt starts at -3 with flw_cnt
    -- incremented, then one assignment per second: -2, -1, 0
    let flw2 : Fin 4 → Nat := fun i => if sel i then s.flw_cnt i + 1 else s.flw_cnt i
    -- Phase 2: burst: period_msec = BURST_COUNT * interval_max;
    -- pre_cnt preset to period_sec, then k one-second decrements while
    -- the 250-event burst runs
    let period_msec := LOSS_TEST_BURST_COUNT * (value_interval s.round_adv_param_index).2
    let period_sec : Int := 1 + ((period_msec / 1000 : Nat) : Int)
    let burst_trace : List Int := (List.range k).map (fun j : Nat => period_sec - 1 - (j : Int))
    -- Phase 3: post-burst report: all acknowledge flags cleared,
    -- pre_cnt = 0, per-channel subtotal += BURST_COUNT
    let sub2 : Fin 4 → Nat := fun i =>
      if sel i then sub_total_snd s i + LOSS_TEST_BURST_COUNT else sub_total_snd s i
    -- Phase 4 (after the acknowledgment wait): completion check
    let done : Fin 4 → Bool := fun i => decide (s.round_total_num ≤ sub2 i)
    ({ s with
        sub_total_snd_2m := sub2 0
        sub_total_snd_1m := sub2 1
        sub_total_snd_s8 := sub2 2
        sub_total_snd_ble4 := sub2 3
        pre_cnt := fun i =>
          if sel i then (if done i then INT16_MAX else 0) else s.pre_cnt i
        flw_cnt := flw2
        snd_state_val := fun _ => 0
        ack_remote_resp := fun _ => false },
     fun i =>
       if sel i then
         [-3, -2, -1, 0] ++ [period_sec] ++ burst_trace ++ [0] ++
           (if done i then [INT16_MAX] else [])
       else [],
     1)
  else
    -- All selected channels complete: sender_finit marks every enabled
    -- channel done (pre_cnt = INT16_MAX) and the driver returns 0
    ({ s with
        pre_cnt := fun i => if s.round_phy_sel i then INT16_MAX else s.pre_cnt i },
     fun i => if s.round_phy_sel i then [INT16_MAX] else [],
     0)

theorem burst_trace_chain (P : Int) (k : Nat) :
    List.Chain' (fun a b => b + 1 = a)
      (P :: (List.range k).map (fun j : Nat => P - 1 - (j : Int))) := by
  induction k generalizing P with
  | zero => simp
  | succ n ih =>
    have hmap : (List.range (n + 1)).map (fun j : Nat => P - 1 - (j : Int)) =
        (P - 1) :: (List.range n).map (fun j : Nat => (P - 1) - 1 - (j : Int)) := by
      rw [List.range_succ_eq_map, List.map_cons, List.map_map]
      refine congrArg₂ _ (by push_cast; ring) (List.map_congr_left fun j hj => ?_)
      simp only [Function.comp]
      push_cast
      ring
    rw [hmap, List.chain'_cons]
    exact ⟨by ring, ih (P - 1)⟩

theorem burst_trace_pos (P : Int) (k : Nat) (hk : (k : Int) < P) :
    ∀ x ∈ P :: (List.range k).map (fun j : Nat => P - 1 - (j : Int)), 0 < x := by
  intro x hx
  rcases List.mem_cons.mp hx with h | h
  · subst h
    have : (0 : Int) ≤ (k : Int) := Int.natCast_nonneg k
    omega
  · rcases List.mem_map.mp h with ⟨j, hj, rfl⟩
    rw [List.mem_range] at hj
    omega

/-- C3: Sentinel round-trip.  For a selected channel, one un-aborted
cycle of `losstst_sender` assigns to `pre_cnt` exactly the sequence
-3, -2, -1, 0 (the countdown, one value per second of the timed loop),
then the positive seconds-remaining values starting at
`period_sec = 1 + 250 * interval_max / 1000` and decreasing by one per
second, then 0 (burst complete), then `INT16_MAX` exactly when the
channel's sent subtotal has reached the configured total; `INT16_MIN`
(the round-start preset written by `sender_setup`) never appears in the
cycle's assignments, and the channel's final `pre_cnt` is `INT16_MAX`
when done and 0 otherwise — no other value appears at the completion
boundary. -/
theorem C3_sentinel_round_trip (s : SenderState) (k : Nat) (i : Fin 4)
    (hsel : sender_lc_phy_sel s i = true)
    (hneed : sender_need_more s)
    (hk : (k : Int) < 1 +
      ((LOSS_TEST_BURST_COUNT *
        (value_interval s.round_adv_param_index).2 / 1000 : Nat) : Int)) :
    ∃ mid : List Int,
      (losstst_sender_cycle s k).2.1 i =
        [-3, -2, -1, 0] ++ mid ++ [0] ++
          (if s.round_total_num ≤ sub_total_snd s i + LOSS_TEST_BURST_COUNT
           then [INT16_MAX] else []) ∧
      mid.head? = some (1 +
        ((LOSS_TEST_BURST_COUNT *
          (value_interval s.round_adv_param_index).2 / 1000 : Nat) : Int)) ∧
      (∀ x ∈ mid, 0 < x) ∧
      List.Chain' (fun a b => b + 1 = a) mid ∧
      INT16_MIN ∉ (losstst_sender_cycle s k).2.1 i ∧
      ((losstst_sender_cycle s k).1.pre_cnt i = INT16_MAX ↔
        s.round_total_num ≤ sub_total_snd s i + LOSS_TEST_BURST_COUNT) ∧
      (¬s.round_total_num ≤ sub_total_snd s i + LOSS_TEST_BURST_COUNT →
        (losstst_sender_cycle s k).1.pre_cnt i = 0) ∧
      (losstst_sender_cycle s k).2.2 = 1 := by
  have hP : (0 : Int) < 1 +
      ((LOSS_TEST_BURST_COUNT *
        (value_interval s.round_adv_param_index).2 / 1000 : Nat) : Int) := by
    have := Int.natCast_nonneg
      (LOSS_TEST_BURST_COUNT * (value_interval s.round_adv_param_index).2 / 1000)
    omega
  have htr : (losstst_sender_cycle s k).2.1 i =
      [-3, -2, -1, 0] ++
        [(1 + ((LOSS_TEST_BURST_COUNT *
          (value_interval s.round_adv_param_index).2 / 1000 : Nat) : Int))] ++
        (List.range k).map (fun j : Nat =>
          (1 + ((LOSS_TEST_BURST_COUNT *
            (value_interval s.round_adv_param_index).2 / 1000 : Nat) : Int)) - 1 -
            (j : Int)) ++ [0] ++
        (if s.round_total_num ≤ sub_total_snd s i + LOSS_TEST_BURST_COUNT
         then [INT16_MAX] else []) := by
    unfold losstst_sender_cycle
    rw [if_pos hneed]
    dsimp only
    rw [hsel]
    simp
  have hpre : (losstst_sender_cycle s k).1.pre_cnt i =
      (if s.round_total_num ≤ sub_total_snd s i + LOSS_TEST_BURST_COUNT
       then INT16_MAX else 0) := by
    unfold losstst_sender_cycle
    rw [if_pos hneed]
    dsimp only
    rw [hsel]
    simp
  refine ⟨(1 + ((LOSS_TEST_BURST_COUNT *
      (value_interval s.round_adv_param_index).2 / 1000 : Nat) : Int)) ::
      (List.range k).map (fun j : Nat =>
        (1 + ((LOSS_TEST_BURST_COUNT *
          (value_interval s.round_adv_param_index).2 / 1000 : Nat) : Int)) - 1 -
          (j : Int)),
    by rw [htr]; simp, rfl, burst_trace_pos _ k hk, burst_trace_chain _ k,
    ?_, ?_, ?_, ?_⟩
  · have hall : ∀ x ∈ (losstst_sender_cycle s k).2.1 i,
        x = -3 ∨ x = -2 ∨ x = -1 ∨ x = 0 ∨ 0 < x ∨ x = INT16_MAX := by
      rw [htr]
      intro x hx
      rcases List.mem_append.mp hx with h | h
      · rcases List.mem_append.mp h with h | h
        · rcases List.mem_append.mp h with h | h
          · rcases List.mem_append.mp h with h | h
            · simp only [List.mem_cons, List.not_mem_nil, or_false] at h
              rcases h with h | h | h | h <;> omega
            · simp only [List.mem_singleton] at h
              omega
          · rcases List.mem_map.mp h with ⟨j, hj, rfl⟩
            rw [List.mem_range] at hj
            have : (j : Int) < (k : Int) := by exact_mod_cast hj
            omega
        · simp only [List.mem_singleton] at h
          omega
      · split at h
        · simp only [List.mem_singleton] at h
          omega
        · exact absurd h (List.not_mem_nil _)
    intro hmem
    have := hall INT16_MIN hmem
    rw [INT16_MIN, INT16_MAX] at this
    omega
  · rw [hpre]
    split
    · next h => exact ⟨fun _ => h, fun _ => rfl⟩
    · next h => exact ⟨fun h0 => absurd h0 (by decide), fun hh => absurd hh h⟩
  · intro hnot
    rw [hpre, if_neg hnot]
  · unfold losstst_sender_cycle
    rw [if_pos hneed]

/-- Witness for C3: a fresh round with total 500, only the 2M channel
enabled at interval class 0, and two burst-wait ticks. -/
theorem C3_sentinel_round_trip_witness :
    sender_lc_phy_sel
      { sub_total_snd_2m := 0
        sub_total_snd_1m := 0
        sub_total_snd_s8 := 0
        sub_total_snd_ble4 := 0
        round_total_num := 500
        round_phy_sel := fun i => i = 0
        round_adv_param_index := 0
        pre_cnt := fun _ => INT16_MIN
        flw_cnt := fun _ => 0
        snd_state_val := fun _ => 0
        ack_remote_resp := fun _ => false
        ignore_rcv_resp := false } 0 = true ∧
    ∃ mid : List Int,
      (losstst_sender_cycle
        { sub_total_snd_2m := 0
          sub_total_snd_1m := 0
          sub_total_snd_s8 := 0
          sub_total_snd_ble4 := 0
          round_total_num := 500
          round_phy_sel := fun i => i = 0
          round_adv_param_index := 0
          pre_cnt := fun _ => INT16_MIN
          flw_cnt := fun _ => 0
          snd_state_val := fun _ => 0
          ack_remote_resp := fun _ => false
          ignore_rcv_resp := false } 2).2.1 0 =
        [-3, -2, -1, 0] ++ mid ++ [0] ++
          (if (500 : Nat) ≤ 0 + LOSS_TEST_BURST_COUNT then [INT16_MAX] else []) ∧
      mid.head? = some 16 ∧
      (∀ x ∈ mid, 0 < x) ∧
      List.Chain' (fun a b => b + 1 = a) mid := by
  refine ⟨by decide, ?_⟩
  obtain ⟨mid, h1, h2, h3, h4, -⟩ := C3_sentinel_round_trip
    { sub_total_snd_2m := 0
      sub_total_snd_1m := 0
      sub_total_snd_s8 := 0
      sub_total_snd_ble4 := 0
      round_total_num := 500
      round_phy_sel := fun i => i = 0
      round_adv_param_index := 0
      pre_cnt := fun _ => INT16_MIN
      flw_cnt := fun _ => 0
      snd_state_val := fun _ => 0
      ack_remote_resp := fun _ => false
      ignore_rcv_resp := false } 2 0 (by decide) (by decide) (by decide)
  exact ⟨mid, by simpa using h1, by simpa using h2, h3, h4⟩

theorem sender_cycle_subtotals (t : SenderState) (k2 : Nat)
    (hneed : sender_need_more t) (i : Fin 4) :
    sub_total_snd (losstst_sender_cycle t k2).1 i =
      (if sender_lc_phy_sel t i = true then
        sub_total_snd t i + LOSS_TEST_BURST_COUNT
       else sub_total_snd t i) := by
  unfold losstst_sender_cycle
  rw [if_pos hneed]
  dsimp only
  fin_cases i <;> simp [sub_total_snd]

theorem sender_cycle_subtotals_mono (t : SenderState) (k2 : Nat) (i : Fin 4) :
    sub_total_snd t i ≤ sub_total_snd (losstst_sender_cycle t k2).1 i := by
  by_cases hneed : sender_need_more t
  · rw [sender_cycle_subtotals t k2 hneed i]
    split_ifs <;> omega
  · unfold losstst_sender_cycle
    rw [if_neg hneed]
    fin_cases i <;> simp [sub_total_snd]

/-- C6: Post-burst accounting.  In a Sender round with total count 1000,
PHY flags 2M and 1M enabled, interval class 0 and fresh subtotals, one
un-aborted cycle increases both selected channels' sent subtotals by
exactly `BURST_COUNT = 250` and leaves their `pre_cnt` at 0 (the round
is not done), with the driver returning 1; and in general every
post-burst report adds exactly `BURST_COUNT` to each selected channel's
subtotal and leaves unselected channels' subtotals unchanged, so
per-channel subtotals never decrease across cycles. -/
theorem C6_post_burst_accounting (s : SenderState) (k : Nat)
    (htotal : s.round_total_num = 1000)
    (hsel0 : s.round_phy_sel 0 = true) (hsel1 : s.round_phy_sel 1 = true)
    (hsel2 : s.round_phy_sel 2 = false) (hsel3 : s.round_phy_sel 3 = false)
    (hidx : s.round_adv_param_index = 0)
    (hsub0 : s.sub_total_snd_2m = 0) (hsub1 : s.sub_total_snd_1m = 0) :
    ((losstst_sender_cycle s k).1.sub_total_snd_2m =
        s.sub_total_snd_2m + LOSS_TEST_BURST_COUNT ∧
     (losstst_sender_cycle s k).1.sub_total_snd_1m =
        s.sub_total_snd_1m + LOSS_TEST_BURST_COUNT ∧
     (losstst_sender_cycle s k).1.pre_cnt 0 = 0 ∧
     (losstst_sender_cycle s k).1.pre_cnt 1 = 0 ∧
     (losstst_sender_cycle s k).2.2 = 1) ∧
    (∀ (t : SenderState) (k2 : Nat),
      (sender_need_more t →
        ∀ i : Fin 4, sub_total_snd (losstst_sender_cycle t k2).1 i =
          (if sender_lc_phy_sel t i = true then
            sub_total_snd t i + LOSS_TEST_BURST_COUNT
           else sub_total_snd t i)) ∧
      (∀ i : Fin 4,
        sub_total_snd t i ≤ sub_total_snd (losstst_sender_cycle t k2).1 i)) := by
  have hgrp : sender_sub_phy1 s ≤ sender_sub_phy2 s := by
    unfold sender_sub_phy1 sender_sub_phy0 sender_sub_phy2
    rw [hsel0, hsel1, hsel2, hsub0, hsub1, htotal]
    simp
  have hlc0 : sender_lc_phy_sel s 0 = true := by
    unfold sender_lc_phy_sel
    rw [if_pos hgrp, if_neg (by decide), hsel0]
  have hlc1 : sender_lc_phy_sel s 1 = true := by
    unfold sender_lc_phy_sel
    rw [if_pos hgrp, if_neg (by decide), hsel1]
  have hneed : sender_need_more s := Or.inl ⟨hlc0, by omega⟩
  have hnotdone0 : ¬s.round_total_num ≤ sub_total_snd s 0 + LOSS_TEST_BURST_COUNT := by
    unfold sub_total_snd LOSS_TEST_BURST_COUNT
    rw [if_pos rfl, hsub0, htotal]
    omega
  have hnotdone1 : ¬s.round_total_num ≤ sub_total_snd s 1 + LOSS_TEST_BURST_COUNT := by
    unfold sub_total_snd LOSS_TEST_BURST_COUNT
    rw [if_neg (by decide), if_pos rfl, hsub1, htotal]
    omega
  refine ⟨⟨?_, ?_, ?_, ?_, ?_⟩,
    fun t k2 => ⟨fun hneedt i => sender_cycle_subtotals t k2 hneedt i,
      fun i => sender_cycle_subtotals_mono t k2 i⟩⟩
  · have := sender_cycle_subtotals s k hneed 0
    rw [if_pos hlc0] at this
    simpa [sub_total_snd] using this
  · have := sender_cycle_subtotals s k hneed 1
    rw [if_pos hlc1] at this
    simpa [sub_total_snd] using this
  · unfold losstst_sender_cycle
    rw [if_pos hneed]
    dsimp only
    simp [hlc0, sub_total_snd, htotal, hsub0, LOSS_TEST_BURST_COUNT]
  · unfold losstst_sender_cycle
    rw [if_pos hneed]
    dsimp only
    simp [hlc1, sub_total_snd, htotal, hsub1, LOSS_TEST_BURST_COUNT]
  · unfold losstst_sender_cycle
    rw [if_pos hneed]

/-- Witness for C6: a fresh Scenario-A round (total 1000, 2M and 1M
enabled, interval class 0) with three burst-wait ticks. -/
theorem C6_post_burst_accounting_witness :
    ({ sub_total_snd_2m := 0
       sub_total_snd_1m := 0
       sub_total_snd_s8 := 0
       sub_total_snd_ble4 := 0
       round_total_num := 1000
       round_phy_sel := fun i => decide (i = 0 ∨ i = 1)
       round_adv_param_index := 0
       pre_cnt := fun _ => INT16_MIN
       flw_cnt := fun _ => 0
       snd_state_val := fun _ => 0
       ack_remote_resp := fun _ => false
       ignore_rcv_resp := false } : SenderState).round_total_num = 1000 ∧
    (losstst_sender_cycle
      { sub_total_snd_2m := 0
        sub_total_snd_1m := 0
        sub_total_snd_s8 := 0
        sub_total_snd_ble4 := 0
        round_total_num := 1000
        round_phy_sel := fun i => decide (i = 0 ∨ i = 1)
        round_adv_param_index := 0
        pre_cnt := fun _ => INT16_MIN
        flw_cnt := fun _ => 0
        snd_state_val := fun _ => 0
        ack_remote_resp := fun _ => false
        ignore_rcv_resp := false } 3).1.sub_total_snd_2m =
      0 + LOSS_TEST_BURST_COUNT ∧
    (losstst_sender_cycle
      { sub_total_snd_2m := 0
        sub_total_snd_1m := 0
        sub_total_snd_s8 := 0
        sub_total_snd_ble4 := 0
        round_total_num := 1000
        round_phy_sel := fun i => decide (i = 0 ∨ i = 1)
        round_adv_param_index := 0
        pre_cnt := fun _ => INT16_MIN
        flw_cnt := fun _ => 0
        snd_state_val := fun _ => 0
        ack_remote_resp := fun _ => false
        ignore_rcv_resp := false } 3).1.pre_cnt 0 = 0 :=
  ⟨rfl,
   (C6_post_burst_accounting
     { sub_total_snd_2m := 0
       sub_total_snd_1m := 0
       sub_total_snd_s8 := 0
       sub_total_snd_ble4 := 0
       round_total_num := 1000
       round_phy_sel := fun i => decide (i = 0 ∨ i = 1)
       round_adv_param_index := 0
       pre_cnt := fun _ => INT16_MIN
       flw_cnt := fun _ => 0
       snd_state_val := fun _ => 0
       ack_remote_resp := fun _ => false
       ignore_rcv_resp := false } 3 rfl (by decide) (by decide) (by decide)
     (by decide) rfl rfl rfl).1.1,
   (C6_post_burst_accounting
     { sub_total_snd_2m := 0
       sub_total_snd_1m := 0
       sub_total_snd_s8 := 0
       sub_total_snd_ble4 := 0
       round_total_num := 1000
       round_phy_sel := fun i => decide (i = 0 ∨ i = 1)
       round_adv_param_index := 0
       pre_cnt := fun _ => INT16_MIN
       flw_cnt := fun _ => 0
       snd_state_val := fun _ => 0
       ack_remote_resp := fun _ => false
       ignore_rcv_resp := false } 3 rfl (by decide) (by decide) (by decide)
     (by decide) rfl rfl rfl).1.2.2.1⟩

end LosststSvc
